import Mathlib

/-! # Rerouting traffic rule (`traffic_rules/rerouting/rerouting.cc`)

A shallow embedding of `Rerouting::ChangeLaneFailRerouting`,
`Rerouting::LaneBorrowFailRerouting` and `Rerouting::ApplyRule`.

Conventions of the embedding:

* A C++ `double` input is a finite IEEE 754 binary64 value, held as the rational it
  denotes (`Double`); NaN and infinite inputs are outside the model.  The three arithmetic
  operations of the source (`speed * prepare_rerouting_time`, `adc_s + prepare_distance`,
  `current_time - last_rerouting_time`) each round to nearest, ties to even (`fl`), with
  gradual underflow and without fusing the product into the sum; a computed value of
  magnitude `2 ^ 1024` or more stands for an infinity.  Comparisons are exact.  A floating
  literal of the source is the double nearest to it.
* Collaborators whose code is not in this source file (corridor queries, the
  projection `XYToSL`, `IsOnLane`, `Vec2d::DistanceTo`, the clock, the dispatcher
  `Frame::Rerouting`) are inputs of the model: each cycle is evaluated against a `Cycle`
  record that fixes what they answer.
* Mutable data (the shared rerouting status and the member `is_rerouting_`) is
  passed explicitly as a `State`.  The field `rerouting_calls` is a ghost counter
  of calls to `Frame::Rerouting`; every function result also carries a ghost
  label naming the `return` statement that produced it.
-/

namespace apollo
namespace planning

/-! ## Double-precision values and arithmetic -/

/-- The rationals that are finite binary64 values: `m * 2 ^ e` with `|m| < 2 ^ 53` and
`-1074 ≤ e ≤ 971`. -/
def IsF64 (q : ℚ) : Prop :=
  ∃ m e : ℤ, m.natAbs < 2 ^ 53 ∧ -1074 ≤ e ∧ e ≤ 971 ∧ q = (m : ℚ) * (2 : ℚ) ^ e

/-- A finite C++ `double`, held as the rational it denotes. -/
structure Double where
  val : ℚ
  finite : IsF64 val

instance : DecidableEq Double := fun a b =>
  decidable_of_iff (a.val = b.val)
    ⟨fun h => by cases a; cases b; cases h; rfl, fun h => by rw [h]⟩

/-- The double `m * 2 ^ e`. -/
def Double.ofScaled (m e : ℤ) (h : m.natAbs < 2 ^ 53 ∧ -1074 ≤ e ∧ e ≤ 971) : Double :=
  ⟨(m : ℚ) * (2 : ℚ) ^ e, m, e, h.1, h.2.1, h.2.2, rfl⟩

/-- The double of an integer below `2 ^ 53` in magnitude. -/
def Double.ofInt (n : ℤ) (h : n.natAbs < 2 ^ 53) : Double :=
  ⟨(n : ℚ), n, 0, h, by decide, by decide, by simp⟩

/-- Round to the nearest integer, ties to the even one. -/
def roundNearestEven (t : ℚ) : ℤ :=
  if t - ⌊t⌋ < 1 / 2 then ⌊t⌋
  else if 1 / 2 < t - ⌊t⌋ then ⌊t⌋ + 1
  else if ⌊t⌋ % 2 = 0 then ⌊t⌋
  else ⌊t⌋ + 1

/-- The binary exponent at which `x` is rounded: `⌊log₂ |x|⌋`, and `-1022` in the subnormal
range. -/
def exponentOf (x : ℚ) : ℤ := max (Int.log 2 |x|) (-1022)

/-- The spacing of binary64 values around `x`. -/
def ulpOf (x : ℚ) : ℚ := (2 : ℚ) ^ (exponentOf x - 52)

/-- Rounding of an exact result to binary64: to nearest, ties to even.  A result of
magnitude `2 ^ 1024` or more stands for an infinity. -/
def fl (x : ℚ) : ℚ := (roundNearestEven (x / ulpOf x) : ℚ) * ulpOf x

/-- The product `a * b` of two doubles, as computed. -/
def Double.mul (a b : Double) : ℚ := fl (a.val * b.val)

/-- The sum `a + b` of a double `a` and a computed value `b`, as computed: an infinite `b`
stays infinite. -/
def Double.add (a : Double) (b : ℚ) : ℚ :=
  if (2 : ℚ) ^ 1024 ≤ |b| then b else fl (a.val + b)

/-- The difference `a - b` of two doubles, as computed. -/
def Double.sub (a b : Double) : ℚ := fl (a.val - b.val)

/-! ## Data model -/

/-- Modelled from the spec: the corridor's required action, `routing::FORWARD` versus a
lane-change action (the enum `routing::ChangeLaneType` is declared outside this file). -/
inductive ChangeLaneType where
  | FORWARD
  | LEFT
  | RIGHT
  deriving DecidableEq, Repr

/-- Modelled from the spec: a planar point (`common::PointENU`, `common::math::Vec2d`). -/
structure Vec2d where
  x : Double
  y : Double
  deriving DecidableEq

/-- Modelled from the spec: a point in the corridor's longitudinal/lateral frame
(`common::SLPoint`). -/
structure SLPoint where
  s : Double
  l : Double
  deriving DecidableEq

/-- Modelled from the spec: lane geometry lookup by waypoint (`LaneInfo::GetSmoothPoint`). -/
structure LaneInfo where
  GetSmoothPoint : Double → Vec2d

/-- Modelled from the spec: the optional waypoint marking where the current passage region
ends; `lane` is a possibly-null pointer. -/
structure LaneWaypoint where
  lane : Option LaneInfo
  s : Double

/-- Modelled from the spec: the corridor/segment queries of `RouteSegments`. -/
structure RouteSegments where
  NextAction : ChangeLaneType
  IsOnSegment : Bool
  CanExit : Bool
  RouteEndWaypoint : LaneWaypoint

/-- Modelled from the spec: the projection utilities of `ReferenceLine`;
`XYToSL` answers `none` when it reports failure. -/
structure ReferenceLine where
  XYToSL : Vec2d → Option SLPoint
  IsOnLane : SLPoint → Bool

/-- Modelled from the spec: `AdcSlBoundary()`, of which only `end_s` is read. -/
structure SLBoundary where
  end_s : Double

/-- Modelled from the spec: what a `ReferenceLineInfo` (one candidate corridor) answers. -/
structure ReferenceLineInfo where
  ReachedDestination : Bool
  SDistanceToDestination : Double
  Lanes : RouteSegments
  reference_line : ReferenceLine
  AdcSlBoundary : SLBoundary
  vehicle_state : Vec2d

/-- Modelled from the spec: a pose of the rerouting payload; both coordinates are optional
protobuf scalars. -/
structure Pose where
  x : Option Double
  y : Option Double
  deriving DecidableEq

/-- Modelled from the spec: the `lane_follow_command` payload, an ordered list of waypoints
plus a terminal pose. -/
structure LaneFollowCommand where
  way_point : List Pose
  end_pose : Option Pose
  deriving DecidableEq

/-- Modelled from the spec: the rerouting sub-status of the shared planning status. -/
structure ReroutingStatus where
  last_rerouting_time : Option Double
  need_rerouting : Bool
  lane_follow_command : Option LaneFollowCommand
  deriving DecidableEq

/-- Modelled from the spec: the evaluator configuration `ReroutingConfig`. -/
structure ReroutingConfig where
  prepare_rerouting_time : Double
  cooldown_time : Double

/-- Modelled from the spec: the frame of one planning cycle: all candidate corridors, and
the dispatcher `Frame::Rerouting`, which is handed the shared status, may write it, and
reports success or failure. -/
structure Frame where
  reference_line_info : List ReferenceLineInfo
  Rerouting : ReroutingStatus → Bool × ReroutingStatus

/-- Everything one call of `ApplyRule` reads that it does not own: the two arguments
(`frame`, `reference_line_info`), the vehicle speed from the injector, the loaded
configuration `config_`, the value `Clock::NowInSeconds()` returns in this cycle, and the
library function `Vec2d::DistanceTo` (the planar distance of two points as a double; it is
not in this source file, and an infinite result is any value of magnitude `2 ^ 1024` or
more). -/
structure Cycle where
  frame : Frame
  reference_line_info : ReferenceLineInfo
  linear_velocity : Double
  config : ReroutingConfig
  now : Double
  DistanceTo : Vec2d → Vec2d → ℚ

/-- The mutable data: the rerouting status reached through
`mutable_planning_status()->mutable_rerouting()` (`none` for a null pointer), the member
`is_rerouting_`, and the ghost counter of dispatcher calls. -/
structure State where
  rerouting : Option ReroutingStatus
  is_rerouting_ : Bool
  rerouting_calls : Nat
  deriving DecidableEq

/-- Ghost label: the `return` statement of `ChangeLaneFailRerouting` that was taken. -/
inductive ChangeLaneExit where
  | nearDestination
  | forward
  | notOnSegment
  | canExit
  | noEndWaypoint
  | projectionFailed
  | notOnLane
  | leadTime
  | statusMissing
  | cooldown
  | dispatchFailed
  | dispatched
  deriving DecidableEq, Repr

/-- Result of `ChangeLaneFailRerouting`: the returned `bool`, the ghost label, the state. -/
structure ChangeLaneResult where
  ok : Bool
  exit : ChangeLaneExit
  st : State

/-- The constant `kRerouteThresholdToEnd`. -/
def kRerouteThresholdToEnd : ℚ := 20

/-- The loop over `frame_->reference_line_info()`: is some candidate corridor at, or within
`kRerouteThresholdToEnd` of, the destination? -/
def nearDestination : List ReferenceLineInfo → Bool
  | [] => false
  | ref_line_info :: rest =>
    if ref_line_info.ReachedDestination ||
        decide (ref_line_info.SDistanceToDestination.val < kRerouteThresholdToEnd) then
      true
    else
      nearDestination rest

/-- The value an unset optional `double` field reads as. -/
def Double.zero : Double := Double.ofInt 0 (by decide)

/-- `Rerouting::ChangeLaneFailRerouting`. -/
def ChangeLaneFailRerouting (c : Cycle) (st : State) : ChangeLaneResult :=
  if nearDestination c.frame.reference_line_info then
    ⟨true, .nearDestination, st⟩
  else
    let segments := c.reference_line_info.Lanes
    -- 1. If current reference line is drive forward, no rerouting.
    if segments.NextAction = ChangeLaneType.FORWARD then
      ⟨true, .forward, st⟩
    -- 2. If vehicle is not on current reference line yet, no rerouting
    else if !segments.IsOnSegment then
      ⟨true, .notOnSegment, st⟩
    -- 3. If current reference line can connect to next passage, no rerouting
    else if segments.CanExit then
      ⟨true, .canExit, st⟩
    else
      -- 4. If the end of current passage region not appeared, no rerouting
      let route_end_waypoint := segments.RouteEndWaypoint
      match route_end_waypoint.lane with
      | none => ⟨true, .noEndWaypoint, st⟩
      | some lane =>
        let point := lane.GetSmoothPoint route_end_waypoint.s
        let reference_line := c.reference_line_info.reference_line
        match reference_line.XYToSL point with
        | none => ⟨false, .projectionFailed, st⟩
        | some sl_point =>
          if !reference_line.IsOnLane sl_point then
            ⟨true, .notOnLane, st⟩
          else
            -- 5. If the end of current passage region is further than
            -- kPrepareRoutingTime * speed, no rerouting
            let adc_s := c.reference_line_info.AdcSlBoundary.end_s
            let speed := c.linear_velocity
            let prepare_rerouting_time := c.config.prepare_rerouting_time
            let prepare_distance := speed.mul prepare_rerouting_time
            if sl_point.s.val > adc_s.add prepare_distance then
              ⟨true, .leadTime, st⟩
            else
              -- 6. Check if we have done rerouting before
              match st.rerouting with
              | none => ⟨false, .statusMissing, st⟩
              | some rerouting =>
                let current_time := c.now
                if rerouting.last_rerouting_time.isSome &&
                    decide (current_time.sub (rerouting.last_rerouting_time.getD Double.zero) <
                      c.config.cooldown_time.val) then
                  ⟨true, .cooldown, st⟩
                else
                  let sent := c.frame.Rerouting rerouting
                  let st1 : State :=
                    { st with rerouting := some sent.2
                              rerouting_calls := st.rerouting_calls + 1 }
                  if !sent.1 then
                    ⟨false, .dispatchFailed, st1⟩
                  else
                    -- store last rerouting time.
                    ⟨true, .dispatched,
                      { st1 with
                        rerouting :=
                          some { sent.2 with last_rerouting_time := some current_time } }⟩

/-- Ghost label: the `return` statement of `LaneBorrowFailRerouting` that was taken. -/
inductive LaneBorrowExit where
  | statusMissing
  | noTrigger
  | fired
  deriving DecidableEq, Repr

/-- Result of `LaneBorrowFailRerouting`: the returned `bool`, the ghost label, the state. -/
structure LaneBorrowResult where
  ok : Bool
  exit : LaneBorrowExit
  st : State

/-- The literal `target_point` of `LaneBorrowFailRerouting`: the doubles nearest to
423866.1667887506 and 4438129.189725632. -/
def target_point : Vec2d :=
  ⟨Double.ofScaled 7281965296954261 (-34) (by decide),
    Double.ofScaled 2382702465661821 (-29) (by decide)⟩

/-- The waypoint written by `add_way_point()`, `set_x`, `set_y`: the doubles nearest to
423856.89459433797 and 4438075.06514868. -/
def fixed_way_point : Pose :=
  ⟨some (Double.ofScaled 7281806001867203 (-34) (by decide)),
    some (Double.ofScaled 2382673407750831 (-29) (by decide))⟩

/-- The literal of `end_pose->set_x`: the double nearest to 423865.94871507853. -/
def end_pose_x : Double := Double.ofScaled 3640980775238551 (-33) (by decide)

/-- The literal of `end_pose->set_y`: the double nearest to 4437810.73895879. -/
def end_pose_y : Double := Double.ofScaled 4765062997416399 (-30) (by decide)

/-- `mutable_lane_follow_command()`: the present command, or a fresh empty one. -/
def ReroutingStatus.mutable_lane_follow_command (r : ReroutingStatus) : LaneFollowCommand :=
  r.lane_follow_command.getD ⟨[], none⟩

/-- `mutable_end_pose()`: the present end pose, or a fresh empty one. -/
def LaneFollowCommand.mutable_end_pose (cmd : LaneFollowCommand) : Pose :=
  cmd.end_pose.getD ⟨none, none⟩

/-- `Rerouting::LaneBorrowFailRerouting`. -/
def LaneBorrowFailRerouting (c : Cycle) (st : State) : LaneBorrowResult :=
  match st.rerouting with
  | none => ⟨false, .statusMissing, st⟩
  | some rerouting =>
    let adc_point : Vec2d :=
      ⟨c.reference_line_info.vehicle_state.x, c.reference_line_info.vehicle_state.y⟩
    let distance := c.DistanceTo target_point adc_point
    if decide (distance > 2) || st.is_rerouting_ then
      ⟨true, .noTrigger, st⟩
    else
      let lane_follow_command := rerouting.mutable_lane_follow_command
      -- clear_way_point(); add_way_point(); set_x; set_y
      let lane_follow_command1 : LaneFollowCommand :=
        { lane_follow_command with way_point := [fixed_way_point] }
      let end_pose := lane_follow_command1.mutable_end_pose
      let end_pose1 : Pose :=
        { end_pose with x := some end_pose_x, y := some end_pose_y }
      let lane_follow_command2 : LaneFollowCommand :=
        { lane_follow_command1 with end_pose := some end_pose1 }
      let rerouting1 : ReroutingStatus :=
        { rerouting with lane_follow_command := some lane_follow_command2
                         need_rerouting := true }
      ⟨true, .fired, { st with rerouting := some rerouting1, is_rerouting_ := true }⟩

/-- Modelled from the spec: the error codes of `common::Status` that `ApplyRule` produces. -/
inductive ErrorCode where
  | OK
  | PLANNING_ERROR
  deriving DecidableEq, Repr

/-- Modelled from the spec: `common::Status`, an error code with a reason string. -/
structure Status where
  code : ErrorCode
  msg : String
  deriving DecidableEq

/-- `Status::OK()`. -/
def Status.OK : Status := ⟨ErrorCode.OK, ""⟩

/-- `Rerouting::ApplyRule`: the returned status and the state after the cycle. -/
def ApplyRule (c : Cycle) (st : State) : Status × State :=
  let r1 := ChangeLaneFailRerouting c st
  if !r1.ok then
    (⟨ErrorCode.PLANNING_ERROR, "In un-successful lane change case, rerouting failed"⟩, r1.st)
  else
    let r2 := LaneBorrowFailRerouting c r1.st
    if !r2.ok then
      (⟨ErrorCode.PLANNING_ERROR, "In un-successful lane change case, rerouting failed"⟩,
        r2.st)
    else
      (Status.OK, r2.st)

/-! ## Which inputs take the cascade to a given step -/

/-- The cascade gets as far as the on-lane test with projected point `sl_point`: no candidate
corridor is near the destination, the action is not `FORWARD`, the vehicle is on the
segment, the corridor cannot exit, the end waypoint has a lane, and `XYToSL` succeeds. -/
def reachesOnLaneStep (c : Cycle) (sl_point : SLPoint) : Prop :=
  nearDestination c.frame.reference_line_info = false ∧
    c.reference_line_info.Lanes.NextAction ≠ ChangeLaneType.FORWARD ∧
    c.reference_line_info.Lanes.IsOnSegment = true ∧
    c.reference_line_info.Lanes.CanExit = false ∧
    ∃ lane, c.reference_line_info.Lanes.RouteEndWaypoint.lane = some lane ∧
      c.reference_line_info.reference_line.XYToSL
        (lane.GetSmoothPoint c.reference_line_info.Lanes.RouteEndWaypoint.s) = some sl_point

/-- The cascade gets as far as the lead-time test: it reaches the on-lane test and that
test does not return. -/
def reachesLeadTimeStep (c : Cycle) (sl_point : SLPoint) : Prop :=
  reachesOnLaneStep c sl_point ∧
    c.reference_line_info.reference_line.IsOnLane sl_point = true

/-- The bound `adc_s + prepare_distance` of the lead-time test, as computed in double
arithmetic: `fl (adc_s + fl (speed * prepare_rerouting_time))`. -/
def leadTimeBound (c : Cycle) : ℚ :=
  c.reference_line_info.AdcSlBoundary.end_s.add
    (c.linear_velocity.mul c.config.prepare_rerouting_time)

/-- The cooldown test on a present status: a previous dispatch time exists and
`now - last_rerouting_time`, as computed in double arithmetic, is below `cooldown_time`. -/
def inCooldown (c : Cycle) (rerouting : ReroutingStatus) : Prop :=
  ∃ last, rerouting.last_rerouting_time = some last ∧
    c.now.sub last < c.config.cooldown_time.val

/-- The cascade gets as far as the dispatcher call on the present status `rerouting`. -/
def reachesDispatchStep (c : Cycle) (st : State) (rerouting : ReroutingStatus) : Prop :=
  (∃ sl_point, reachesLeadTimeStep c sl_point ∧ sl_point.s.val ≤ leadTimeBound c) ∧
    st.rerouting = some rerouting ∧ ¬ inCooldown c rerouting

/-! ## Runs of cycles -/

/-- One step of a run: before the cycle other components may rewrite the shared rerouting
status (`others`); the member `is_rerouting_` is private to the evaluator. -/
structure Tick where
  others : Option ReroutingStatus → Option ReroutingStatus
  cycle : Cycle

/-- The state a tick's cycle starts from. -/
def Tick.enter (t : Tick) (st : State) : State :=
  { st with rerouting := t.others st.rerouting }

/-- Does `ApplyRule` in this cycle reach `LaneBorrowFailRerouting` and does that call write
the payload? -/
def proximityFires (c : Cycle) (st : State) : Bool :=
  (ChangeLaneFailRerouting c st).ok &&
    decide ((LaneBorrowFailRerouting c (ChangeLaneFailRerouting c st).st).exit =
      LaneBorrowExit.fired)

/-- Number of cycles of a run of `ApplyRule` in which the proximity trigger writes the
payload. -/
def proximityWrites : List Tick → State → Nat
  | [], _ => 0
  | t :: ts, st =>
    (if proximityFires t.cycle (t.enter st) then 1 else 0) +
      proximityWrites ts (ApplyRule t.cycle (t.enter st)).2

/-- Evaluating `ApplyRule` again on the same inputs at the given later clock times, one
cycle after the other. -/
def reevaluate (c : Cycle) : List Double → State → State
  | [], st => st
  | t :: ts, st => reevaluate c ts (ApplyRule { c with now := t } st).2

/-! ## Sample inputs used to instantiate the theorems -/

/-- The double of a small natural number (taken modulo `2 ^ 53`, so that every natural
number is accepted). -/
def Double.ofNat (n : ℕ) : Double :=
  Double.ofInt ((n % 2 ^ 53 : ℕ) : ℤ) (by
    rw [Int.natAbs_ofNat]
    exact Nat.mod_lt _ (by decide))

/-- A lane whose smooth point at arc length `s` is `(s, 0)`. -/
def sampleLane : LaneInfo := ⟨fun s => ⟨s, Double.zero⟩⟩

/-- A reference line on which `(x, y)` projects to `s = x`, `l = y` when `projects` holds,
and on which every projected point is on lane exactly when `onLane` holds. -/
def sampleReferenceLine (projects onLane : Bool) : ReferenceLine :=
  ⟨fun p => if projects then some ⟨p.x, p.y⟩ else none, fun _ => onLane⟩

/-- A corridor `dist` away from the destination, with the given action and end-of-passage
waypoint at `s = P`; the vehicle is on the segment, cannot exit, has `end_s = A` and
stands at `pos`. -/
def sampleCorridor (dist : Double) (action : ChangeLaneType) (P A : Double)
    (projects onLane : Bool) (pos : Vec2d) : ReferenceLineInfo :=
  { ReachedDestination := false
    SDistanceToDestination := dist
    Lanes := ⟨action, true, false, ⟨some sampleLane, P⟩⟩
    reference_line := sampleReferenceLine projects onLane
    AdcSlBoundary := ⟨A⟩
    vehicle_state := pos }

/-- A dispatcher that reports `ok` and leaves the status as it is. -/
def sampleDispatcher (ok : Bool) : ReroutingStatus → Bool × ReroutingStatus :=
  fun r => (ok, r)

/-- A stand-in for `std::hypot(dx, dy)`: the Euclidean norm truncated to a multiple of
`2 ^ -100`, then rounded to a double. -/
def sampleHypot (dx dy : ℚ) : ℚ :=
  fl ((Nat.sqrt ⌊(dx * dx + dy * dy) * 4 ^ 100⌋₊ : ℚ) / 2 ^ 100)

/-- A stand-in for `Vec2d::DistanceTo`: `hypot` of the coordinate differences, each
computed in double arithmetic. -/
def sampleDistanceTo (p other : Vec2d) : ℚ :=
  sampleHypot (p.x.sub other.x) (p.y.sub other.y)

/-- A cycle with one candidate corridor, which is also the active one; speed 10,
`prepare_rerouting_time = 2`, `cooldown_time = 30`. -/
def sampleCycle (corridor : ReferenceLineInfo) (dispatchOk : Bool) (now : Double) : Cycle :=
  { frame := ⟨[corridor], sampleDispatcher dispatchOk⟩
    reference_line_info := corridor
    linear_velocity := Double.ofNat 10
    config := ⟨Double.ofNat 2, Double.ofNat 30⟩
    now := now
    DistanceTo := sampleDistanceTo }

/-- A rerouting status with nothing set. -/
def emptyStatus : ReroutingStatus := ⟨none, false, none⟩

/-- The state before the first cycle: status present and empty, latch unset. -/
def initialState : State := ⟨some emptyStatus, false, 0⟩

/-- The state once the proximity trigger has fired: status present, latch set. -/
def latchedState : State := ⟨some emptyStatus, true, 0⟩

/-- The origin of the plane. -/
def origin : Vec2d := ⟨Double.zero, Double.zero⟩

/-- The projection of the end of passage in the sample cycles: `s = 15`, `l = 0`. -/
def sampleEnd : SLPoint := ⟨Double.ofNat 15, Double.zero⟩

/-- The triggering cycle of the end-to-end scenarios at clock time `now`: one lane-change
corridor 500 from the destination, end of passage projected on lane at `s = 15`, vehicle
at `end_s = 0`, and a dispatcher that succeeds. -/
def triggeringCycle (now : Double) : Cycle :=
  sampleCycle (sampleCorridor (Double.ofNat 500) .LEFT (Double.ofNat 15) Double.zero true true
    origin) true now

/-- The triggering cycle with the projected end-of-passage point off lane. -/
def offLaneCycle (now : Double) : Cycle :=
  sampleCycle (sampleCorridor (Double.ofNat 500) .LEFT (Double.ofNat 15) Double.zero true false
    origin) true now

/-- The triggering cycle on a reference line onto which nothing projects. -/
def unprojectableCycle (now : Double) : Cycle :=
  sampleCycle (sampleCorridor (Double.ofNat 500) .LEFT (Double.ofNat 15) Double.zero false true
    origin) true now

/-- The triggering cycle with a dispatcher that reports failure. -/
def failingDispatchCycle (now : Double) : Cycle :=
  sampleCycle (sampleCorridor (Double.ofNat 500) .LEFT (Double.ofNat 15) Double.zero true true
    origin) false now

/-- A forward cycle with the vehicle standing at `pos`. -/
def cruisingCycle (pos : Vec2d) : Cycle :=
  sampleCycle (sampleCorridor (Double.ofNat 500) .FORWARD (Double.ofNat 15) Double.zero true
    true pos) true (Double.ofNat 100)

/-- The unprojectable cycle with the vehicle standing at `pos`. -/
def unprojectableCycleAt (pos : Vec2d) : Cycle :=
  sampleCycle (sampleCorridor (Double.ofNat 500) .LEFT (Double.ofNat 15) Double.zero false true
    pos) true (Double.ofNat 100)

/-- A state whose status holds an earlier dispatch time (7) and two stale waypoints, latch
unset. -/
def staleState : State :=
  ⟨some ⟨some (Double.ofNat 7), false,
    some ⟨[⟨some (Double.ofNat 1), some (Double.ofNat 2)⟩, ⟨some (Double.ofNat 3), none⟩],
      none⟩⟩, false, 0⟩

/-- A state in which the shared rerouting status is absent (null pointer), latch unset. -/
def missingStatusState : State := ⟨none, false, 0⟩

/-- A lane-change corridor 500 from the destination with the given on-segment and can-exit
answers and end-waypoint lane, on which nothing projects. -/
def earlyExitCorridor (onSegment canExit : Bool) (lane : Option LaneInfo) :
    ReferenceLineInfo :=
  { ReachedDestination := false
    SDistanceToDestination := Double.ofNat 500
    Lanes := ⟨.LEFT, onSegment, canExit, ⟨lane, Double.ofNat 15⟩⟩
    reference_line := sampleReferenceLine false true
    AdcSlBoundary := ⟨Double.zero⟩
    vehicle_state := origin }

/-- A cycle on an `earlyExitCorridor` with a dispatcher that reports failure. -/
def earlyExitCycle (onSegment canExit : Bool) (lane : Option LaneInfo) : Cycle :=
  sampleCycle (earlyExitCorridor onSegment canExit lane) false (Double.ofNat 100)

/-- The projected end of passage at `s = 0.30000000000000004` (the double
`1351079888211149 * 2 ^ -52`), `l = 0`. -/
def roundedEnd : SLPoint := ⟨Double.ofScaled 1351079888211149 (-52) (by decide), Double.zero⟩

/-- The triggering cycle with the end of passage at `roundedEnd`, speed 0.1 (the double
`3602879701896397 * 2 ^ -55`) and `prepare_rerouting_time = 3`. -/
def roundedLeadTimeCycle : Cycle :=
  { sampleCycle (sampleCorridor (Double.ofNat 500) .LEFT roundedEnd.s Double.zero true true
      origin) true (Double.ofNat 100) with
    linear_velocity := Double.ofScaled 3602879701896397 (-55) (by decide)
    config := ⟨Double.ofNat 3, Double.ofNat 30⟩ }

/-- The clock value 1.17 (the double `658651445502935 * 2 ^ -49`). -/
def clock_1_17 : Double := Double.ofScaled 658651445502935 (-49) (by decide)

/-- The clock value 31.169999999999998 (the double `8773575024071147 * 2 ^ -48`). -/
def clock_31_17 : Double := Double.ofScaled 8773575024071147 (-48) (by decide)

/-- The vehicle position (423864.1667887506, 4438129.189725032), as doubles. -/
def nearRadiusPoint : Vec2d :=
  ⟨Double.ofScaled 7281930937215893 (-34) (by decide),
    Double.ofScaled 2382702465661499 (-29) (by decide)⟩

/-- The vehicle position two units east of `target_point`: (`target_point.x + 2`,
`target_point.y`), as doubles. -/
def eastPoint : Vec2d :=
  ⟨Double.ofScaled 7281999656692629 (-34) (by decide), target_point.y⟩

/-- The position `eastPoint` moved north by one unit in the last place of `target_point.y`:
(`target_point.x + 2`, `nextafter(target_point.y, +inf)`), as doubles. -/
def eastPointUp : Vec2d :=
  ⟨eastPoint.x, Double.ofScaled 4765404931323643 (-30) (by decide)⟩

/-- The state after one dispatch at clock time 1.17: `last_rerouting_time = 1.17`, one
dispatcher call, latch unset. -/
def dispatchedState : State := ⟨some ⟨some clock_1_17, false, none⟩, false, 1⟩

/-! ## Facts about rounding -/

theorem floor_le_roundNearestEven (t : ℚ) : ⌊t⌋ ≤ roundNearestEven t := by
  unfold roundNearestEven
  split_ifs <;> omega

theorem roundNearestEven_le_floor_succ (t : ℚ) : roundNearestEven t ≤ ⌊t⌋ + 1 := by
  unfold roundNearestEven
  split_ifs <;> omega

theorem le_roundNearestEven (t : ℚ) (n : ℤ) (h : (n : ℚ) ≤ t) : n ≤ roundNearestEven t :=
  le_trans (Int.le_floor.2 h) (floor_le_roundNearestEven t)

theorem roundNearestEven_le (t : ℚ) (n : ℤ) (h : t ≤ (n : ℚ)) : roundNearestEven t ≤ n := by
  rcases lt_or_eq_of_le h with hlt | heq
  · have h1 : ⌊t⌋ < n := Int.floor_lt.2 hlt
    have := roundNearestEven_le_floor_succ t
    omega
  · subst heq
    simp [roundNearestEven]

theorem roundNearestEven_tie_odd (t : ℚ) (f : ℤ) (h : t = (f : ℚ) + 1 / 2)
    (hodd : f % 2 = 1) : roundNearestEven t = f + 1 := by
  have hf : ⌊t⌋ = f := by
    rw [Int.floor_eq_iff, h]
    constructor <;> linarith
  unfold roundNearestEven
  rw [hf, h]
  norm_num [hodd]

theorem ulpOf_pos (x : ℚ) : 0 < ulpOf x := by
  unfold ulpOf
  positivity

theorem zpow_exponentOf_le (x : ℚ) (hx : x ≠ 0) (h : -1022 < exponentOf x) :
    (2 : ℚ) ^ exponentOf x ≤ |x| := by
  have hE : exponentOf x = Int.log 2 |x| := by
    unfold exponentOf at h ⊢
    rcases le_total (Int.log 2 |x|) (-1022) with hle | hle
    · rw [max_eq_right hle] at h
      exact absurd h (lt_irrefl _)
    · exact max_eq_left hle
  rw [hE]
  have := Int.zpow_log_le_self (b := 2) (r := |x|) (by norm_num) (abs_pos.2 hx)
  simpa using this

theorem exponentOf_eq (x : ℚ) (E : ℤ) (hmin : -1022 ≤ E) (hlo : (2 : ℚ) ^ E ≤ |x|)
    (hhi : |x| < (2 : ℚ) ^ (E + 1)) : exponentOf x = E := by
  have hpos : 0 < |x| := lt_of_lt_of_le (by positivity) hlo
  have h1 : E ≤ Int.log 2 |x| :=
    (Int.zpow_le_iff_le_log (b := 2) (by norm_num) hpos).1 (by simpa using hlo)
  have h2 : Int.log 2 |x| < E + 1 :=
    (Int.lt_zpow_iff_log_lt (b := 2) (by norm_num) hpos).1 (by simpa using hhi)
  unfold exponentOf
  rw [max_eq_left (by omega)]
  omega

theorem fl_zero : fl 0 = 0 := by
  simp [fl, roundNearestEven]

theorem fl_eq (x : ℚ) (E k : ℤ) (hE : exponentOf x = E)
    (hk : roundNearestEven (x / (2 : ℚ) ^ (E - 52)) = k) :
    fl x = (k : ℚ) * (2 : ℚ) ^ (E - 52) := by
  unfold fl ulpOf
  rw [hE, hk]

theorem scaled_eq_mul_ulp (m e E : ℤ) (h : E - 52 ≤ e) :
    ∃ n : ℤ, (m : ℚ) * (2 : ℚ) ^ e = (n : ℚ) * (2 : ℚ) ^ (E - 52) := by
  obtain ⟨k, hk⟩ : ∃ k : ℕ, e = (E - 52) + k := ⟨(e - (E - 52)).toNat, by omega⟩
  refine ⟨m * 2 ^ k, ?_⟩
  rw [hk, zpow_add₀ (by norm_num : (2 : ℚ) ≠ 0)]
  push_cast
  rw [zpow_natCast]
  ring

theorem abs_intCast_lt (m : ℤ) (hm : m.natAbs < 2 ^ 53) : |(m : ℚ)| < 2 ^ 53 := by
  have h : ((m.natAbs : ℤ) : ℚ) < 2 ^ 53 := by exact_mod_cast hm
  rwa [Int.natCast_natAbs, Int.cast_abs] at h

theorem abs_scaled_lt (m e E : ℤ) (hm : m.natAbs < 2 ^ 53) (h : e < E - 52) :
    |(m : ℚ) * (2 : ℚ) ^ e| < (2 : ℚ) ^ E := by
  have hm2 := abs_intCast_lt m hm
  have he : (2 : ℚ) ^ e ≤ (2 : ℚ) ^ (E - 53) :=
    zpow_le_zpow_right₀ (by norm_num) (by omega)
  have hpos : (0 : ℚ) < (2 : ℚ) ^ e := by positivity
  rw [abs_mul, abs_of_pos hpos]
  calc |(m : ℚ)| * (2 : ℚ) ^ e ≤ |(m : ℚ)| * (2 : ℚ) ^ (E - 53) :=
        mul_le_mul_of_nonneg_left he (abs_nonneg _)
    _ < 2 ^ 53 * (2 : ℚ) ^ (E - 53) := by
        apply mul_lt_mul_of_pos_right hm2
        positivity
    _ = (2 : ℚ) ^ E := by
        rw [show E = (53 : ℤ) + (E - 53) by ring, zpow_add₀ (by norm_num : (2 : ℚ) ≠ 0)]
        norm_num

theorem zpow_exponentOf_eq (x : ℚ) :
    (2 : ℚ) ^ exponentOf x = ((2 ^ 52 : ℤ) : ℚ) * ulpOf x := by
  unfold ulpOf
  rw [show exponentOf x = (52 : ℤ) + (exponentOf x - 52) by ring,
    zpow_add₀ (by norm_num : (2 : ℚ) ≠ 0)]
  norm_num

/-- Rounding does not cross a double from above: a double below the exact result is below
the rounded one. -/
theorem le_fl (d x : ℚ) (hd : IsF64 d) (h : d ≤ x) : d ≤ fl x := by
  obtain ⟨m, e, hm, he, -, rfl⟩ := hd
  by_cases hx0 : x = 0
  · rw [hx0, fl_zero]; rw [hx0] at h; exact h
  have hu := ulpOf_pos x
  by_cases hcase : exponentOf x - 52 ≤ e
  · obtain ⟨n, hn⟩ := scaled_eq_mul_ulp m e (exponentOf x) hcase
    rw [hn] at h ⊢
    have h1 : (n : ℚ) ≤ x / ulpOf x := by
      rw [le_div_iff₀ hu]; exact h
    have h2 := le_roundNearestEven _ n h1
    unfold fl
    exact mul_le_mul_of_nonneg_right (by exact_mod_cast h2) hu.le
  · push_neg at hcase
    have hlt := abs_scaled_lt m e (exponentOf x) hm hcase
    have hE : -1022 < exponentOf x := by omega
    have hle := zpow_exponentOf_le x hx0 hE
    rcases lt_or_gt_of_ne hx0 with hneg | hpos
    · exfalso
      have h3 : |x| ≤ |(m : ℚ) * (2 : ℚ) ^ e| := by
        rw [abs_of_neg hneg, abs_of_neg (lt_of_le_of_lt h hneg)]
        linarith
      linarith
    · rw [abs_of_pos hpos, zpow_exponentOf_eq] at hle
      have h1 : ((2 ^ 52 : ℤ) : ℚ) ≤ x / ulpOf x := by
        rw [le_div_iff₀ hu]; exact hle
      have h2 := le_roundNearestEven _ _ h1
      have h3 : ((2 ^ 52 : ℤ) : ℚ) * ulpOf x ≤ fl x := by
        unfold fl
        exact mul_le_mul_of_nonneg_right (by exact_mod_cast h2) hu.le
      rw [← zpow_exponentOf_eq] at h3
      have h4 := le_abs_self ((m : ℚ) * (2 : ℚ) ^ e)
      linarith

/-- Rounding does not cross a double from below: a double above the exact result is above
the rounded one. -/
theorem fl_le (d x : ℚ) (hd : IsF64 d) (h : x ≤ d) : fl x ≤ d := by
  obtain ⟨m, e, hm, he, -, rfl⟩ := hd
  by_cases hx0 : x = 0
  · rw [hx0, fl_zero]; rw [hx0] at h; exact h
  have hu := ulpOf_pos x
  by_cases hcase : exponentOf x - 52 ≤ e
  · obtain ⟨n, hn⟩ := scaled_eq_mul_ulp m e (exponentOf x) hcase
    rw [hn] at h ⊢
    have h1 : x / ulpOf x ≤ (n : ℚ) := by
      rw [div_le_iff₀ hu]; exact h
    have h2 := roundNearestEven_le _ n h1
    unfold fl
    exact mul_le_mul_of_nonneg_right (by exact_mod_cast h2) hu.le
  · push_neg at hcase
    have hlt := abs_scaled_lt m e (exponentOf x) hm hcase
    have hE : -1022 < exponentOf x := by omega
    have hle := zpow_exponentOf_le x hx0 hE
    rcases lt_or_gt_of_ne hx0 with hneg | hpos
    · rw [abs_of_neg hneg, zpow_exponentOf_eq] at hle
      have h1 : x / ulpOf x ≤ ((-(2 ^ 52) : ℤ) : ℚ) := by
        rw [div_le_iff₀ hu]; push_cast; push_cast at hle; linarith
      have h2 := roundNearestEven_le _ _ h1
      have h3 : fl x ≤ ((-(2 ^ 52) : ℤ) : ℚ) * ulpOf x := by
        unfold fl
        exact mul_le_mul_of_nonneg_right (by exact_mod_cast h2) hu.le
      have h5 : ((-(2 ^ 52) : ℤ) : ℚ) * ulpOf x = -(2 : ℚ) ^ exponentOf x := by
        rw [zpow_exponentOf_eq]; push_cast; ring
      rw [h5] at h3
      have h4 := neg_abs_le ((m : ℚ) * (2 : ℚ) ^ e)
      linarith
    · exfalso
      have h3 : |x| ≤ |(m : ℚ) * (2 : ℚ) ^ e| := by
        rw [abs_of_pos hpos, abs_of_pos (lt_of_lt_of_le hpos h)]
        exact h
      linarith

/-- A double is its own rounding. -/
theorem fl_of_isF64 (d : ℚ) (hd : IsF64 d) : fl d = d :=
  le_antisymm (fl_le d d hd le_rfl) (le_fl d d hd le_rfl)

theorem isF64_intCast (n : ℤ) (h : n.natAbs < 2 ^ 53) : IsF64 (n : ℚ) :=
  ⟨n, 0, h, by decide, by decide, by simp⟩

theorem isF64_scaled (m e : ℤ) (h : m.natAbs < 2 ^ 53 ∧ -1074 ≤ e ∧ e ≤ 971) :
    IsF64 ((m : ℚ) * (2 : ℚ) ^ e) :=
  ⟨m, e, h.1, h.2.1, h.2.2, rfl⟩

/-- Every double is an integer multiple of `2 ^ -1074`. -/
theorem isF64_multiple (d : ℚ) (hd : IsF64 d) :
    ∃ n : ℤ, d = (n : ℚ) * (2 : ℚ) ^ (-1074 : ℤ) := by
  obtain ⟨m, e, -, he, -, rfl⟩ := hd
  have h := scaled_eq_mul_ulp m e (-1022) (by omega)
  simpa using h

/-- The computed difference of two doubles has the sign of the exact difference: if
`a < b` then `a - b`, as computed, is negative. -/
theorem sub_neg_of_lt (a b : Double) (h : a.val < b.val) : a.sub b < 0 := by
  obtain ⟨na, ha⟩ := isF64_multiple a.val a.finite
  obtain ⟨nb, hb⟩ := isF64_multiple b.val b.finite
  have hpos : (0 : ℚ) < (2 : ℚ) ^ (-1074 : ℤ) := by positivity
  have hlt : na < nb := by
    rw [ha, hb] at h
    have := lt_of_mul_lt_mul_right h hpos.le
    exact_mod_cast this
  have hle : a.val - b.val ≤ ((-1 : ℤ) : ℚ) * (2 : ℚ) ^ (-1074 : ℤ) := by
    rw [ha, hb, ← sub_mul]
    apply mul_le_mul_of_nonneg_right _ hpos.le
    have : na - nb ≤ -1 := by omega
    exact_mod_cast this
  have h1 := fl_le _ _ (isF64_scaled (-1) (-1074) (by decide)) hle
  have h2 : ((-1 : ℤ) : ℚ) * (2 : ℚ) ^ (-1074 : ℤ) < 0 := by
    have : ((-1 : ℤ) : ℚ) * (2 : ℚ) ^ (-1074 : ℤ) = -((2 : ℚ) ^ (-1074 : ℤ)) := by
      push_cast; ring
    rw [this]
    linarith
  unfold Double.sub
  linarith

theorem Double.ofNat_val (n : ℕ) (h : n < 2 ^ 53) : (Double.ofNat n).val = n := by
  show (((n % 2 ^ 53 : ℕ) : ℤ) : ℚ) = n
  rw [Nat.mod_eq_of_lt h]
  simp

theorem Double.zero_val : Double.zero.val = 0 := by
  simp [Double.zero, Double.ofInt]

theorem Double.ofScaled_val (m e : ℤ) (h : m.natAbs < 2 ^ 53 ∧ -1074 ≤ e ∧ e ≤ 971) :
    (Double.ofScaled m e h).val = (m : ℚ) * (2 : ℚ) ^ e := rfl

/-! ## Rounding away from a tie, and the source's literals -/

theorem roundNearestEven_of_near (t : ℚ) (k : ℤ) (h : |t - (k : ℚ)| < 1 / 2) :
    roundNearestEven t = k := by
  rw [abs_lt] at h
  rcases le_or_lt (k : ℚ) t with hle | hlt
  · have hf : ⌊t⌋ = k := by
      rw [Int.floor_eq_iff]
      constructor <;> linarith
    unfold roundNearestEven
    rw [hf, if_pos (by linarith)]
  · have hf : ⌊t⌋ = k - 1 := by
      rw [Int.floor_eq_iff]
      push_cast
      constructor <;> linarith
    unfold roundNearestEven
    rw [hf, if_neg (by push_cast; linarith), if_pos (by push_cast; linarith)]
    ring

/-- The double nearest to `x`, when `x` lies in the binade of exponent `E` and within half
a unit in the last place of `k * 2 ^ (E - 52)`. -/
theorem fl_near (x : ℚ) (E k : ℤ) (hmin : -1022 ≤ E) (hlo : (2 : ℚ) ^ E ≤ |x|)
    (hhi : |x| < (2 : ℚ) ^ (E + 1)) (hk : |x / (2 : ℚ) ^ (E - 52) - (k : ℚ)| < 1 / 2) :
    fl x = (k : ℚ) * (2 : ℚ) ^ (E - 52) :=
  fl_eq x E k (exponentOf_eq x E hmin hlo hhi) (roundNearestEven_of_near _ k hk)

/-- The literal `423866.1667887506` of line 135 denotes the x-coordinate of
`target_point`. -/
theorem target_point_x_literal : target_point.x.val = fl 423866.1667887506 := by
  rw [fl_near _ 18 7281965296954261 (by norm_num) (by norm_num [abs_of_pos])
    (by norm_num [abs_of_pos]) (by rw [abs_lt]; constructor <;> norm_num)]
  simp only [target_point, Double.ofScaled_val]
  norm_num

/-- The literal `4438129.189725632` of line 135 denotes the y-coordinate of
`target_point`. -/
theorem target_point_y_literal : target_point.y.val = fl 4438129.189725632 := by
  rw [fl_near _ 22 4765404931323642 (by norm_num) (by norm_num [abs_of_pos])
    (by norm_num [abs_of_pos]) (by rw [abs_lt]; constructor <;> norm_num)]
  simp only [target_point, Double.ofScaled_val]
  norm_num

/-- The doubles used as sample inputs are the ones the decimal literals `0.1`,
`0.30000000000000004`, `1.17` and `31.169999999999998` denote. -/
theorem sample_literals :
    roundedLeadTimeCycle.linear_velocity.val = fl 0.1 ∧
      roundedEnd.s.val = fl 0.30000000000000004 ∧
      clock_1_17.val = fl 1.17 ∧
      clock_31_17.val = fl 31.169999999999998 := by
  rw [fl_near _ (-4) 7205759403792794 (by norm_num) (by norm_num [abs_of_pos])
    (by norm_num [abs_of_pos]) (by rw [abs_lt]; constructor <;> norm_num),
    fl_near _ (-2) 5404319552844596 (by norm_num) (by norm_num [abs_of_pos])
    (by norm_num [abs_of_pos]) (by rw [abs_lt]; constructor <;> norm_num),
    fl_near _ 0 5269211564023480 (by norm_num) (by norm_num [abs_of_pos])
    (by norm_num [abs_of_pos]) (by rw [abs_lt]; constructor <;> norm_num),
    fl_near _ 4 8773575024071147 (by norm_num) (by norm_num [abs_of_pos])
    (by norm_num [abs_of_pos]) (by rw [abs_lt]; constructor <;> norm_num)]
  refine ⟨?_, ?_, ?_, ?_⟩
  · show (Double.ofScaled 3602879701896397 (-55) (by decide)).val = _
    rw [Double.ofScaled_val]
    norm_num
  · simp only [roundedEnd, Double.ofScaled_val]
    norm_num
  · simp only [clock_1_17, Double.ofScaled_val]
    norm_num
  · simp only [clock_31_17, Double.ofScaled_val]
    norm_num

/-- The doubles of `nearRadiusPoint` are the ones the decimal literals `423864.1667887506`
and `4438129.189725032` denote. -/
theorem nearRadiusPoint_literal :
    nearRadiusPoint.x.val = fl 423864.1667887506 ∧
      nearRadiusPoint.y.val = fl 4438129.189725032 := by
  rw [fl_near _ 18 7281930937215893 (by norm_num) (by norm_num [abs_of_pos])
    (by norm_num [abs_of_pos]) (by rw [abs_lt]; constructor <;> norm_num),
    fl_near _ 22 4765404931322998 (by norm_num) (by norm_num [abs_of_pos])
    (by norm_num [abs_of_pos]) (by rw [abs_lt]; constructor <;> norm_num)]
  simp only [nearRadiusPoint, Double.ofScaled_val]
  constructor <;> norm_num

/-! ## The sample distance function at the points used below -/

theorem fl_scaled (m e : ℤ) (h : m.natAbs < 2 ^ 53 ∧ -1074 ≤ e ∧ e ≤ 971) :
    fl ((m : ℚ) * (2 : ℚ) ^ e) = (m : ℚ) * (2 : ℚ) ^ e :=
  fl_of_isF64 _ (isF64_scaled m e h)

theorem fl_two (x : ℚ) (h1 : 2 ≤ x) (h2 : x < 2 + 1 / 2 ^ 53) : fl x = 2 := by
  have hx : |x| = x := abs_of_pos (by linarith)
  rw [fl_near x 1 (2 ^ 52) (by norm_num) (by rw [hx]; norm_num; linarith)
    (by rw [hx]; norm_num; linarith)
    (by
      rw [abs_lt]
      norm_num
      constructor <;> linarith)]
  norm_num

theorem sampleHypot_eq (dx dy : ℚ) (N : ℕ) (h : (dx * dx + dy * dy) * 4 ^ 100 = (N : ℚ)) :
    sampleHypot dx dy = fl ((Nat.sqrt N : ℚ) / 2 ^ 100) := by
  unfold sampleHypot
  rw [h, Nat.floor_natCast]

theorem sampleDistanceTo_self (p : Vec2d) : sampleDistanceTo p p = 0 := by
  unfold sampleDistanceTo Double.sub
  rw [sub_self, sub_self, fl_zero, sampleHypot_eq 0 0 0 (by norm_num)]
  simp [fl_zero]

theorem sampleDistanceTo_eastPoint : sampleDistanceTo target_point eastPoint = 2 := by
  have hx : target_point.x.sub eastPoint.x = -2 := by
    have h : target_point.x.val - eastPoint.x.val = ((-2 : ℤ) : ℚ) * (2 : ℚ) ^ (0 : ℤ) := by
      simp only [target_point, eastPoint, Double.ofScaled_val]
      norm_num
    unfold Double.sub
    rw [h, fl_scaled (-2) 0 (by decide)]
    norm_num
  have hy : target_point.y.sub eastPoint.y = 0 := by
    unfold Double.sub
    rw [show eastPoint.y = target_point.y from rfl, sub_self, fl_zero]
  unfold sampleDistanceTo
  rw [hx, hy, sampleHypot_eq _ _ (2 ^ 101 * 2 ^ 101) (by norm_num), Nat.sqrt_eq]
  exact fl_two _ (by norm_num) (by norm_num)

theorem sampleDistanceTo_eastPointUp : sampleDistanceTo target_point eastPointUp = 2 := by
  have hx : target_point.x.sub eastPointUp.x = -2 := by
    have h : target_point.x.val - eastPointUp.x.val = ((-2 : ℤ) : ℚ) * (2 : ℚ) ^ (0 : ℤ) := by
      simp only [target_point, eastPointUp, eastPoint, Double.ofScaled_val]
      norm_num
    unfold Double.sub
    rw [h, fl_scaled (-2) 0 (by decide)]
    norm_num
  have hy : target_point.y.sub eastPointUp.y = ((-1 : ℤ) : ℚ) * (2 : ℚ) ^ (-30 : ℤ) := by
    have h : target_point.y.val - eastPointUp.y.val =
        ((-1 : ℤ) : ℚ) * (2 : ℚ) ^ (-30 : ℤ) := by
      simp only [target_point, eastPointUp, Double.ofScaled_val]
      norm_num
    unfold Double.sub
    rw [h, fl_scaled (-1) (-30) (by decide)]
  unfold sampleDistanceTo
  rw [hx, hy, sampleHypot_eq _ _ (2 ^ 202 + 2 ^ 140) (by norm_num)]
  have hs1 : 2 ^ 101 ≤ Nat.sqrt (2 ^ 202 + 2 ^ 140) := Nat.le_sqrt.2 (by norm_num)
  have hs2 : Nat.sqrt (2 ^ 202 + 2 ^ 140) < 2 ^ 101 + 2 ^ 41 := Nat.sqrt_lt.2 (by norm_num)
  have hq1 : ((2 ^ 101 : ℕ) : ℚ) ≤ (Nat.sqrt (2 ^ 202 + 2 ^ 140) : ℚ) := by
    exact_mod_cast hs1
  have hq2 : (Nat.sqrt (2 ^ 202 + 2 ^ 140) : ℚ) < ((2 ^ 101 + 2 ^ 41 : ℕ) : ℚ) := by
    exact_mod_cast hs2
  apply fl_two
  · rw [le_div_iff₀ (by positivity)]
    refine le_trans ?_ hq1
    norm_num
  · rw [div_lt_iff₀ (by positivity)]
    refine lt_of_lt_of_le hq2 ?_
    norm_num

/-! ## Basic facts -/

theorem nearDestination_iff (l : List ReferenceLineInfo) :
    nearDestination l = true ↔
      ∃ r ∈ l, r.ReachedDestination = true ∨ r.SDistanceToDestination.val < 20 := by
  induction l with
  | nil => simp [nearDestination]
  | cons a rest ih =>
    by_cases h : a.ReachedDestination = true ∨ a.SDistanceToDestination.val < 20
    · have : (a.ReachedDestination ||
          decide (a.SDistanceToDestination.val < kRerouteThresholdToEnd)) = true := by
        simpa [kRerouteThresholdToEnd] using h
      simp [nearDestination, this, h]
    · have : (a.ReachedDestination ||
          decide (a.SDistanceToDestination.val < kRerouteThresholdToEnd)) = false := by
        rw [Bool.eq_false_iff]; simpa [kRerouteThresholdToEnd] using h
      simp only [nearDestination, this, Bool.false_eq_true, if_false, ih, List.mem_cons]
      constructor
      · rintro ⟨r, hr, hp⟩; exact ⟨r, Or.inr hr, hp⟩
      · rintro ⟨r, hr | hr, hp⟩
        · exact absurd (hr ▸ hp) h
        · exact ⟨r, hr, hp⟩

/-! ## The cascade, step by step -/

theorem ChangeLaneFailRerouting_onLaneStep (c : Cycle) (st : State) (sl_point : SLPoint)
    (h : reachesOnLaneStep c sl_point)
    (hoff : c.reference_line_info.reference_line.IsOnLane sl_point = false) :
    ChangeLaneFailRerouting c st = ⟨true, .notOnLane, st⟩ := by
  obtain ⟨h0, h1, h2, h3, lane, h4, h5⟩ := h
  simp [ChangeLaneFailRerouting, h0, h1, h2, h3, h4, h5, hoff]

theorem ChangeLaneFailRerouting_leadTimeStep (c : Cycle) (st : State) (sl_point : SLPoint)
    (h : reachesLeadTimeStep c sl_point) (hfar : sl_point.s.val > leadTimeBound c) :
    ChangeLaneFailRerouting c st = ⟨true, .leadTime, st⟩ := by
  obtain ⟨⟨h0, h1, h2, h3, lane, h4, h5⟩, h6⟩ := h
  simp only [leadTimeBound, gt_iff_lt] at hfar
  simp [ChangeLaneFailRerouting, h0, h1, h2, h3, h4, h5, h6, hfar]

theorem ChangeLaneFailRerouting_statusMissing (c : Cycle) (st : State) (sl_point : SLPoint)
    (h : reachesLeadTimeStep c sl_point) (hnear : sl_point.s.val ≤ leadTimeBound c)
    (hst : st.rerouting = none) :
    ChangeLaneFailRerouting c st = ⟨false, .statusMissing, st⟩ := by
  obtain ⟨⟨h0, h1, h2, h3, lane, h4, h5⟩, h6⟩ := h
  have hfar : ¬ (c.reference_line_info.AdcSlBoundary.end_s.add
      (c.linear_velocity.mul c.config.prepare_rerouting_time) < sl_point.s.val) := by
    simpa [leadTimeBound] using hnear
  simp [ChangeLaneFailRerouting, h0, h1, h2, h3, h4, h5, h6, hfar, hst]

theorem ChangeLaneFailRerouting_cooldown (c : Cycle) (st : State) (sl_point : SLPoint)
    (rerouting : ReroutingStatus)
    (h : reachesLeadTimeStep c sl_point) (hnear : sl_point.s.val ≤ leadTimeBound c)
    (hst : st.rerouting = some rerouting) (hcool : inCooldown c rerouting) :
    ChangeLaneFailRerouting c st = ⟨true, .cooldown, st⟩ := by
  obtain ⟨⟨h0, h1, h2, h3, lane, h4, h5⟩, h6⟩ := h
  obtain ⟨last, hl, hlt⟩ := hcool
  have hfar : ¬ (c.reference_line_info.AdcSlBoundary.end_s.add
      (c.linear_velocity.mul c.config.prepare_rerouting_time) < sl_point.s.val) := by
    simpa [leadTimeBound] using hnear
  simp [ChangeLaneFailRerouting, h0, h1, h2, h3, h4, h5, h6, hfar, hst, hl, hlt]

theorem ChangeLaneFailRerouting_dispatchStep (c : Cycle) (st : State)
    (rerouting : ReroutingStatus) (h : reachesDispatchStep c st rerouting) :
    ChangeLaneFailRerouting c st =
      if (c.frame.Rerouting rerouting).1 = true then
        ⟨true, .dispatched,
          { st with
            rerouting := some { (c.frame.Rerouting rerouting).2 with
                                last_rerouting_time := some c.now }
            rerouting_calls := st.rerouting_calls + 1 }⟩
      else
        ⟨false, .dispatchFailed,
          { st with
            rerouting := some (c.frame.Rerouting rerouting).2
            rerouting_calls := st.rerouting_calls + 1 }⟩ := by
  obtain ⟨⟨sl_point, ⟨⟨h0, h1, h2, h3, lane, h4, h5⟩, h6⟩, hnear⟩, hst, hcool⟩ := h
  have hfar : ¬ (c.reference_line_info.AdcSlBoundary.end_s.add
      (c.linear_velocity.mul c.config.prepare_rerouting_time) < sl_point.s.val) := by
    simpa [leadTimeBound] using hnear
  have hc : (rerouting.last_rerouting_time.isSome &&
      decide (c.now.sub (rerouting.last_rerouting_time.getD Double.zero) <
        c.config.cooldown_time.val))
      = false := by
    rw [Bool.eq_false_iff]
    intro hh
    apply hcool
    cases hl : rerouting.last_rerouting_time with
    | none => simp [hl] at hh
    | some last => exact ⟨last, hl, by simpa [hl] using hh⟩
  by_cases hd : (c.frame.Rerouting rerouting).1 = true
  · simp [ChangeLaneFailRerouting, h0, h1, h2, h3, h4, h5, h6, hfar, hst, hc, hd]
  · simp [ChangeLaneFailRerouting, h0, h1, h2, h3, h4, h5, h6, hfar, hst, hc, hd]

theorem reachesDispatchStep_of_exit (c : Cycle) (st : State)
    (h : (ChangeLaneFailRerouting c st).exit = ChangeLaneExit.dispatched ∨
      (ChangeLaneFailRerouting c st).exit = ChangeLaneExit.dispatchFailed) :
    ∃ rerouting, reachesDispatchStep c st rerouting := by
  unfold ChangeLaneFailRerouting at h
  by_cases h0 : nearDestination c.frame.reference_line_info = true
  · simp [h0] at h
  by_cases h1 : c.reference_line_info.Lanes.NextAction = ChangeLaneType.FORWARD
  · simp [h0, h1] at h
  by_cases h2 : c.reference_line_info.Lanes.IsOnSegment = true
  swap
  · simp [h0, h1, h2] at h
  by_cases h3 : c.reference_line_info.Lanes.CanExit = true
  · simp [h0, h1, h2, h3] at h
  cases h4 : c.reference_line_info.Lanes.RouteEndWaypoint.lane with
  | none => simp [h0, h1, h2, h3, h4] at h
  | some lane =>
    cases h5 : c.reference_line_info.reference_line.XYToSL
        (lane.GetSmoothPoint c.reference_line_info.Lanes.RouteEndWaypoint.s) with
    | none => simp [h0, h1, h2, h3, h4, h5] at h
    | some sl_point =>
      by_cases h6 : c.reference_line_info.reference_line.IsOnLane sl_point = true
      swap
      · simp [h0, h1, h2, h3, h4, h5, h6] at h
      by_cases hfar : c.reference_line_info.AdcSlBoundary.end_s.add
          (c.linear_velocity.mul c.config.prepare_rerouting_time) < sl_point.s.val
      · simp [h0, h1, h2, h3, h4, h5, h6, hfar] at h
      cases hst : st.rerouting with
      | none => simp [h0, h1, h2, h3, h4, h5, h6, hfar, hst] at h
      | some rerouting =>
        refine ⟨rerouting, ⟨sl_point, ⟨⟨?_, h1, h2, ?_, lane, h4, h5⟩, h6⟩, ?_⟩, hst, ?_⟩
        · simpa using h0
        · simpa using h3
        · simpa [leadTimeBound] using hfar
        · rintro ⟨last, hl, hlt⟩
          simp [h0, h1, h2, h3, h4, h5, h6, hfar, hst, hl, hlt] at h

theorem exit_of_reachesLeadTimeStep (c : Cycle) (st : State) (sl_point : SLPoint)
    (h : reachesLeadTimeStep c sl_point) :
    (ChangeLaneFailRerouting c st).exit = ChangeLaneExit.leadTime ∨
      (ChangeLaneFailRerouting c st).exit = ChangeLaneExit.statusMissing ∨
      (ChangeLaneFailRerouting c st).exit = ChangeLaneExit.cooldown ∨
      (ChangeLaneFailRerouting c st).exit = ChangeLaneExit.dispatchFailed ∨
      (ChangeLaneFailRerouting c st).exit = ChangeLaneExit.dispatched := by
  by_cases hfar : sl_point.s.val > leadTimeBound c
  · rw [ChangeLaneFailRerouting_leadTimeStep c st sl_point h hfar]
    exact Or.inl rfl
  have hnear : sl_point.s.val ≤ leadTimeBound c := not_lt.1 hfar
  cases hst : st.rerouting with
  | none =>
    rw [ChangeLaneFailRerouting_statusMissing c st sl_point h hnear hst]
    exact Or.inr (Or.inl rfl)
  | some rerouting =>
    by_cases hcool : inCooldown c rerouting
    · rw [ChangeLaneFailRerouting_cooldown c st sl_point rerouting h hnear hst hcool]
      exact Or.inr (Or.inr (Or.inl rfl))
    · rw [ChangeLaneFailRerouting_dispatchStep c st rerouting
        ⟨⟨sl_point, h, hnear⟩, hst, hcool⟩]
      split
      · exact Or.inr (Or.inr (Or.inr (Or.inr rfl)))
      · exact Or.inr (Or.inr (Or.inr (Or.inl rfl)))

/-! ## The proximity trigger: what it never touches -/

theorem LaneBorrowFailRerouting_calls (c : Cycle) (st : State) :
    (LaneBorrowFailRerouting c st).st.rerouting_calls = st.rerouting_calls := by
  unfold LaneBorrowFailRerouting
  cases st.rerouting with
  | none => rfl
  | some rerouting => dsimp only; split <;> rfl

theorem LaneBorrowFailRerouting_last (c : Cycle) (st : State) :
    (LaneBorrowFailRerouting c st).st.rerouting.map ReroutingStatus.last_rerouting_time =
      st.rerouting.map ReroutingStatus.last_rerouting_time := by
  unfold LaneBorrowFailRerouting
  cases hst : st.rerouting with
  | none => simp [hst]
  | some rerouting => dsimp only; split <;> simp [hst]

theorem LaneBorrowFailRerouting_ok (c : Cycle) (st : State) :
    (LaneBorrowFailRerouting c st).ok = st.rerouting.isSome := by
  unfold LaneBorrowFailRerouting
  cases st.rerouting with
  | none => rfl
  | some rerouting => dsimp only; split <;> rfl

theorem LaneBorrowFailRerouting_latch (c : Cycle) (st : State)
    (h : st.is_rerouting_ = true) :
    (LaneBorrowFailRerouting c st).st.is_rerouting_ = true := by
  unfold LaneBorrowFailRerouting
  cases st.rerouting with
  | none => exact h
  | some rerouting => dsimp only; split <;> simp [h]

theorem ChangeLaneFailRerouting_cases (c : Cycle) (st : State) :
    (ChangeLaneFailRerouting c st).st = st ∨ ∃ rerouting, reachesDispatchStep c st rerouting := by
  by_cases h0 : nearDestination c.frame.reference_line_info = true
  · left; simp [ChangeLaneFailRerouting, h0]
  by_cases h1 : c.reference_line_info.Lanes.NextAction = ChangeLaneType.FORWARD
  · left; simp [ChangeLaneFailRerouting, h0, h1]
  by_cases h2 : c.reference_line_info.Lanes.IsOnSegment = true
  swap
  · left; simp [ChangeLaneFailRerouting, h0, h1, h2]
  by_cases h3 : c.reference_line_info.Lanes.CanExit = true
  · left; simp [ChangeLaneFailRerouting, h0, h1, h2, h3]
  cases h4 : c.reference_line_info.Lanes.RouteEndWaypoint.lane with
  | none => left; simp [ChangeLaneFailRerouting, h0, h1, h2, h3, h4]
  | some lane =>
    cases h5 : c.reference_line_info.reference_line.XYToSL
        (lane.GetSmoothPoint c.reference_line_info.Lanes.RouteEndWaypoint.s) with
    | none => left; simp [ChangeLaneFailRerouting, h0, h1, h2, h3, h4, h5]
    | some sl_point =>
      have hon : reachesOnLaneStep c sl_point :=
        ⟨by simpa using h0, h1, h2, by simpa using h3, lane, h4, h5⟩
      cases h6 : c.reference_line_info.reference_line.IsOnLane sl_point with
      | false => left; rw [ChangeLaneFailRerouting_onLaneStep c st sl_point hon h6]
      | true =>
        by_cases hfar : sl_point.s.val > leadTimeBound c
        · left; rw [ChangeLaneFailRerouting_leadTimeStep c st sl_point ⟨hon, h6⟩ hfar]
        have hnear : sl_point.s.val ≤ leadTimeBound c := not_lt.1 hfar
        cases hst : st.rerouting with
        | none =>
          left; rw [ChangeLaneFailRerouting_statusMissing c st sl_point ⟨hon, h6⟩ hnear hst]
        | some rerouting =>
          by_cases hcool : inCooldown c rerouting
          · left
            rw [ChangeLaneFailRerouting_cooldown c st sl_point rerouting ⟨hon, h6⟩ hnear hst
              hcool]
          · exact Or.inr ⟨rerouting, ⟨sl_point, ⟨hon, h6⟩, hnear⟩, hst, hcool⟩

theorem ChangeLaneFailRerouting_latch (c : Cycle) (st : State) :
    (ChangeLaneFailRerouting c st).st.is_rerouting_ = st.is_rerouting_ := by
  rcases ChangeLaneFailRerouting_cases c st with h | ⟨r, hr⟩
  · rw [h]
  · rw [ChangeLaneFailRerouting_dispatchStep c st r hr]
    split <;> rfl

theorem LaneBorrowFailRerouting_of_latch (c : Cycle) (st : State)
    (h : st.is_rerouting_ = true) :
    (LaneBorrowFailRerouting c st).st = st ∧
      (LaneBorrowFailRerouting c st).exit ≠ LaneBorrowExit.fired := by
  unfold LaneBorrowFailRerouting
  cases st.rerouting with
  | none => exact ⟨rfl, by simp⟩
  | some rerouting => simp [h]

theorem LaneBorrowFailRerouting_fired_latch (c : Cycle) (st : State)
    (h : (LaneBorrowFailRerouting c st).exit = LaneBorrowExit.fired) :
    (LaneBorrowFailRerouting c st).st.is_rerouting_ = true := by
  unfold LaneBorrowFailRerouting at h ⊢
  cases hst : st.rerouting with
  | none => simp [hst] at h
  | some rerouting =>
    simp only [hst] at h ⊢
    split
    · rename_i hc
      simp [hc] at h
    · rfl


theorem LaneBorrowFailRerouting_noTrigger (c : Cycle) (st : State) (r : ReroutingStatus)
    (hst : st.rerouting = some r)
    (h : c.DistanceTo target_point
        ⟨c.reference_line_info.vehicle_state.x, c.reference_line_info.vehicle_state.y⟩ > 2 ∨
      st.is_rerouting_ = true) :
    LaneBorrowFailRerouting c st = ⟨true, .noTrigger, st⟩ := by
  have hc : (decide (c.DistanceTo target_point
      ⟨c.reference_line_info.vehicle_state.x, c.reference_line_info.vehicle_state.y⟩ > 2) ||
      st.is_rerouting_) = true := by
    rcases h with h | h <;> simp [h]
  simp only [LaneBorrowFailRerouting, hst, hc, if_true]

theorem LaneBorrowFailRerouting_fires (c : Cycle) (st : State) (r : ReroutingStatus)
    (hst : st.rerouting = some r)
    (hd : ¬ c.DistanceTo target_point
      ⟨c.reference_line_info.vehicle_state.x, c.reference_line_info.vehicle_state.y⟩ > 2)
    (hlatch : st.is_rerouting_ = false) :
    LaneBorrowFailRerouting c st =
      ⟨true, .fired,
        { rerouting :=
            some
              { last_rerouting_time := r.last_rerouting_time
                need_rerouting := true
                lane_follow_command :=
                  some
                    { way_point := [fixed_way_point]
                      end_pose := some ⟨some end_pose_x, some end_pose_y⟩ } }
          is_rerouting_ := true
          rerouting_calls := st.rerouting_calls }⟩ := by
  have hc : (decide (c.DistanceTo target_point
      ⟨c.reference_line_info.vehicle_state.x, c.reference_line_info.vehicle_state.y⟩ > 2) ||
      st.is_rerouting_) = false := by
    simp [hd, hlatch]
  simp [LaneBorrowFailRerouting, hst, hc, LaneFollowCommand.mutable_end_pose,
    ReroutingStatus.mutable_lane_follow_command]

/-! ## Facts about the sample inputs -/

theorem sampleCorridor_far (action : ChangeLaneType) (P A : Double) (projects onLane : Bool)
    (pos : Vec2d) :
    nearDestination [sampleCorridor (Double.ofNat 500) action P A projects onLane pos] =
      false := by
  simp [nearDestination, sampleCorridor, kRerouteThresholdToEnd,
    Double.ofNat_val 500 (by norm_num)]
  norm_num

theorem sampleCycle_leadTimeBound (action : ChangeLaneType) (P : Double)
    (projects onLane ok : Bool) (pos : Vec2d) (now : Double) :
    leadTimeBound (sampleCycle (sampleCorridor (Double.ofNat 500) action P Double.zero projects
      onLane pos) ok now) = 20 := by
  have h20 : fl 20 = 20 := fl_of_isF64 20 (by simpa using isF64_intCast 20 (by decide))
  have hb : ¬ ((2 : ℚ) ^ 1024 ≤ |(20 : ℚ)|) := by norm_num
  simp only [leadTimeBound, sampleCycle, sampleCorridor, Double.add, Double.mul,
    Double.ofNat_val 10 (by norm_num), Double.ofNat_val 2 (by norm_num), Double.zero_val]
  norm_num [h20]

theorem triggeringCycle_reaches (now : Double) :
    reachesLeadTimeStep (triggeringCycle now) sampleEnd := by
  refine ⟨⟨sampleCorridor_far _ _ _ _ _ _, ?_, rfl, rfl, sampleLane, rfl, rfl⟩, rfl⟩
  show ChangeLaneType.LEFT ≠ ChangeLaneType.FORWARD
  decide

theorem offLaneCycle_reaches (now : Double) :
    reachesOnLaneStep (offLaneCycle now) sampleEnd := by
  refine ⟨sampleCorridor_far _ _ _ _ _ _, ?_, rfl, rfl, sampleLane, rfl, rfl⟩
  show ChangeLaneType.LEFT ≠ ChangeLaneType.FORWARD
  decide

theorem triggeringCycle_near (now : Double) :
    sampleEnd.s.val ≤ leadTimeBound (triggeringCycle now) := by
  show (Double.ofNat 15).val ≤ _
  rw [triggeringCycle, sampleCycle_leadTimeBound, Double.ofNat_val 15 (by norm_num)]
  norm_num

theorem triggeringCycle_dispatchStep (now : Double) :
    reachesDispatchStep (triggeringCycle now) initialState emptyStatus := by
  refine ⟨⟨_, triggeringCycle_reaches now, triggeringCycle_near now⟩, rfl, ?_⟩
  rintro ⟨last, hl, -⟩
  simp [emptyStatus] at hl

theorem triggeringCycle_dispatches (now : Double) :
    ChangeLaneFailRerouting (triggeringCycle now) initialState =
      ⟨true, .dispatched, ⟨some ⟨some now, false, none⟩, false, 1⟩⟩ := by
  rw [ChangeLaneFailRerouting_dispatchStep _ _ _ (triggeringCycle_dispatchStep now)]
  rfl

/-! ## The corridor-exhaustion guard and the forward guard -/

/-- C1: whenever some candidate corridor of the frame has reached the destination or is less
than 20.0 from it, `ChangeLaneFailRerouting` returns success at the first `return`, with the
whole state (dispatcher call count, `last_rerouting_time`) exactly as before, whatever the
other inputs are. -/
theorem near_destination_no_dispatch (c : Cycle) (st : State)
    (h : ∃ r ∈ c.frame.reference_line_info,
      r.ReachedDestination = true ∨ r.SDistanceToDestination.val < 20) :
    (ChangeLaneFailRerouting c st).ok = true ∧
      (ChangeLaneFailRerouting c st).exit = ChangeLaneExit.nearDestination ∧
      (ChangeLaneFailRerouting c st).st = st ∧
      (ChangeLaneFailRerouting c st).st.rerouting_calls = st.rerouting_calls ∧
      (ChangeLaneFailRerouting c st).st.rerouting.map ReroutingStatus.last_rerouting_time =
        st.rerouting.map ReroutingStatus.last_rerouting_time := by
  have hn : nearDestination c.frame.reference_line_info = true :=
    (nearDestination_iff _).2 h
  simp [ChangeLaneFailRerouting, hn]

/-- Instance of C1: a lane-change corridor 5 away from the destination that would otherwise
dispatch. -/
theorem near_destination_no_dispatch_witness :
    (∃ r ∈ (sampleCycle (sampleCorridor (Double.ofNat 5) .LEFT (Double.ofNat 15) Double.zero
          true true origin) true (Double.ofNat 100)).frame.reference_line_info,
        r.ReachedDestination = true ∨ r.SDistanceToDestination.val < 20) ∧
      (ChangeLaneFailRerouting (sampleCycle (sampleCorridor (Double.ofNat 5) .LEFT
        (Double.ofNat 15) Double.zero true true origin) true (Double.ofNat 100))
        initialState).st = initialState := by
  have h : ∃ r ∈ (sampleCycle (sampleCorridor (Double.ofNat 5) .LEFT (Double.ofNat 15)
        Double.zero true true origin) true (Double.ofNat 100)).frame.reference_line_info,
      r.ReachedDestination = true ∨ r.SDistanceToDestination.val < 20 :=
    ⟨sampleCorridor (Double.ofNat 5) .LEFT (Double.ofNat 15) Double.zero true true origin,
      by simp [sampleCycle],
      Or.inr (by
        show (Double.ofNat 5).val < 20
        rw [Double.ofNat_val 5 (by norm_num)]
        norm_num)⟩
  exact ⟨h, (near_destination_no_dispatch _ initialState h).2.2.1⟩

/-- C2: whenever the active corridor's `NextAction()` is `FORWARD`, `ChangeLaneFailRerouting`
returns success at the near-destination or the forward `return`, so it never reaches the
cooldown check or the dispatch; the whole state (dispatcher call count,
`last_rerouting_time`) is exactly as before, whatever the other inputs are. -/
theorem forward_no_dispatch (c : Cycle) (st : State)
    (h : c.reference_line_info.Lanes.NextAction = ChangeLaneType.FORWARD) :
    (ChangeLaneFailRerouting c st).ok = true ∧
      ((ChangeLaneFailRerouting c st).exit = ChangeLaneExit.nearDestination ∨
        (ChangeLaneFailRerouting c st).exit = ChangeLaneExit.forward) ∧
      (ChangeLaneFailRerouting c st).st = st ∧
      (ChangeLaneFailRerouting c st).st.rerouting_calls = st.rerouting_calls ∧
      (ChangeLaneFailRerouting c st).st.rerouting.map ReroutingStatus.last_rerouting_time =
        st.rerouting.map ReroutingStatus.last_rerouting_time := by
  by_cases hn : nearDestination c.frame.reference_line_info = true
  · simp [ChangeLaneFailRerouting, hn]
  · simp [ChangeLaneFailRerouting, hn, h]

/-- Instance of C2: a forward corridor far from the destination whose other inputs would
dispatch. -/
theorem forward_no_dispatch_witness :
    (cruisingCycle origin).reference_line_info.Lanes.NextAction = ChangeLaneType.FORWARD ∧
      (ChangeLaneFailRerouting (cruisingCycle origin) initialState).st = initialState :=
  ⟨rfl, (forward_no_dispatch (cruisingCycle origin) initialState rfl).2.2.1⟩

/-! ## Cooldown -/

theorem ApplyRule_snd_of_ok (c : Cycle) (st : State)
    (h : (ChangeLaneFailRerouting c st).ok = true) :
    (ApplyRule c st).2 = (LaneBorrowFailRerouting c (ChangeLaneFailRerouting c st).st).st := by
  unfold ApplyRule
  simp only [h, Bool.not_true, Bool.false_eq_true, if_false]
  split <;> rfl

theorem ApplyRule_snd_of_fail (c : Cycle) (st : State)
    (h : (ChangeLaneFailRerouting c st).ok = false) :
    (ApplyRule c st).2 = (ChangeLaneFailRerouting c st).st := by
  unfold ApplyRule
  simp [h]

theorem ApplyRule_fst_of_ok (c : Cycle) (st : State)
    (h1 : (ChangeLaneFailRerouting c st).ok = true)
    (h2 : (LaneBorrowFailRerouting c (ChangeLaneFailRerouting c st).st).ok = true) :
    (ApplyRule c st).1 = Status.OK := by
  unfold ApplyRule
  simp [h1, h2]

theorem ApplyRule_fst_of_fail (c : Cycle) (st : State)
    (h : (ChangeLaneFailRerouting c st).ok = false) :
    (ApplyRule c st).1 =
      ⟨ErrorCode.PLANNING_ERROR, "In un-successful lane change case, rerouting failed"⟩ := by
  unfold ApplyRule
  simp [h]

theorem cooldown_cycle (c : Cycle) (st : State) (sl_point : SLPoint) (r : ReroutingStatus)
    (T T' : Double) (hreach : reachesLeadTimeStep c sl_point)
    (hnear : sl_point.s.val ≤ leadTimeBound c)
    (hst : st.rerouting = some r) (hlast : r.last_rerouting_time = some T)
    (hlt : T'.sub T < c.config.cooldown_time.val) :
    ChangeLaneFailRerouting { c with now := T' } st = ⟨true, .cooldown, st⟩ ∧
      (ApplyRule { c with now := T' } st).1 = Status.OK ∧
      (ApplyRule { c with now := T' } st).2.rerouting_calls = st.rerouting_calls ∧
      (ApplyRule { c with now := T' } st).2.rerouting.map
        ReroutingStatus.last_rerouting_time = some (some T) := by
  have hreach2 : reachesLeadTimeStep { c with now := T' } sl_point := hreach
  have hnear2 : sl_point.s.val ≤ leadTimeBound { c with now := T' } := hnear
  have hcool : inCooldown { c with now := T' } r := ⟨T, hlast, hlt⟩
  have e := ChangeLaneFailRerouting_cooldown { c with now := T' } st sl_point r hreach2
    hnear2 hst hcool
  have hok : (ChangeLaneFailRerouting { c with now := T' } st).ok = true := by rw [e]
  have h2 := ApplyRule_snd_of_ok { c with now := T' } st hok
  refine ⟨e, ?_, ?_, ?_⟩
  · apply ApplyRule_fst_of_ok _ _ hok
    rw [e, LaneBorrowFailRerouting_ok, hst]
    rfl
  · rw [h2, LaneBorrowFailRerouting_calls, e]
  · rw [h2, LaneBorrowFailRerouting_last, e, hst]
    simp [hlast]

theorem reevaluate_in_cooldown (c : Cycle) (sl_point : SLPoint) (T : Double)
    (hreach : reachesLeadTimeStep c sl_point) (hnear : sl_point.s.val ≤ leadTimeBound c)
    (ts : List Double) :
    ∀ st : State, (∀ t ∈ ts, t.sub T < c.config.cooldown_time.val) →
      st.rerouting.map ReroutingStatus.last_rerouting_time = some (some T) →
      (reevaluate c ts st).rerouting_calls = st.rerouting_calls ∧
        (reevaluate c ts st).rerouting.map ReroutingStatus.last_rerouting_time =
          some (some T) := by
  induction ts with
  | nil => intro st _ h; exact ⟨rfl, h⟩
  | cons t ts ih =>
    intro st hts h
    obtain ⟨r, hr, hrlast⟩ : ∃ r, st.rerouting = some r ∧ r.last_rerouting_time = some T := by
      cases hq : st.rerouting with
      | none => simp [hq] at h
      | some r => exact ⟨r, rfl, by simpa [hq] using h⟩
    have hc := cooldown_cycle c st sl_point r T t hreach hnear hr hrlast
      (hts t (List.mem_cons_self t ts))
    have hrec := ih (ApplyRule { c with now := t } st).2
      (fun u hu => hts u (List.mem_cons_of_mem t hu)) hc.2.2.2
    exact ⟨by rw [reevaluate, hrec.1, hc.2.2.1], by rw [reevaluate, hrec.2]⟩

/-- The computed difference of two doubles is below a bound as soon as some double lies
between the exact difference and the bound. -/
theorem sub_lt_of_le_double (a b : Double) (d bound : ℚ) (hd : IsF64 d)
    (h1 : a.val - b.val ≤ d) (h2 : d < bound) : a.sub b < bound :=
  lt_of_le_of_lt (fl_le d _ hd h1) h2

theorem clock_difference_rounds_to_30 : clock_31_17.sub clock_1_17 = 30 := by
  have hx : clock_31_17.val - clock_1_17.val =
      (8773575024071147 : ℚ) / 2 ^ 48 - 658651445502935 / 2 ^ 49 := by
    simp only [clock_31_17, clock_1_17, Double.ofScaled_val]
    norm_num
  have hE : exponentOf ((8773575024071147 : ℚ) / 2 ^ 48 - 658651445502935 / 2 ^ 49) = 4 :=
    exponentOf_eq _ _ (by norm_num) (by norm_num [abs_of_pos]) (by norm_num [abs_of_pos])
  unfold Double.sub
  rw [hx, fl_eq _ 4 (30 * 2 ^ 48) hE
    (roundNearestEven_tie_odd _ (30 * 2 ^ 48 - 1) (by norm_num) (by norm_num))]
  norm_num

theorem clock_sum_rounds_up :
    fl (clock_1_17.val + 30) = (8773575024071148 : ℚ) / 2 ^ 48 := by
  have hx : clock_1_17.val + 30 = (658651445502935 : ℚ) / 2 ^ 49 + 30 := by
    simp only [clock_1_17, Double.ofScaled_val]
    norm_num
  have hE : exponentOf ((658651445502935 : ℚ) / 2 ^ 49 + 30) = 4 :=
    exponentOf_eq _ _ (by norm_num) (by norm_num [abs_of_pos]) (by norm_num [abs_of_pos])
  rw [hx, fl_eq _ 4 8773575024071148 hE
    (roundNearestEven_tie_odd _ 8773575024071147 (by norm_num) (by norm_num))]
  norm_num

theorem triggeringCycle_redispatches (S : State)
    (hlast : S.rerouting.map ReroutingStatus.last_rerouting_time = some (some clock_1_17)) :
    (ChangeLaneFailRerouting (triggeringCycle clock_31_17) S).exit =
        ChangeLaneExit.dispatched ∧
      (ApplyRule (triggeringCycle clock_31_17) S).2.rerouting_calls = S.rerouting_calls + 1 ∧
      (ApplyRule (triggeringCycle clock_31_17) S).2.rerouting.map
          ReroutingStatus.last_rerouting_time = some (some clock_31_17) := by
  obtain ⟨r2, hr2, hr2last⟩ : ∃ r2, S.rerouting = some r2 ∧
      r2.last_rerouting_time = some clock_1_17 := by
    cases hq : S.rerouting with
    | none => simp [hq] at hlast
    | some r2 => exact ⟨r2, rfl, by simpa [hq] using hlast⟩
  have hstep : reachesDispatchStep (triggeringCycle clock_31_17) S r2 := by
    refine ⟨⟨_, triggeringCycle_reaches _, triggeringCycle_near _⟩, hr2, ?_⟩
    rintro ⟨last, hl, hlt⟩
    rw [hr2last] at hl
    cases hl
    have h30 : (triggeringCycle clock_31_17).config.cooldown_time.val = 30 := by
      show (Double.ofNat 30).val = 30
      rw [Double.ofNat_val 30 (by norm_num)]
      norm_num
    rw [h30] at hlt
    have hsub : (triggeringCycle clock_31_17).now.sub clock_1_17 = 30 :=
      clock_difference_rounds_to_30
    rw [hsub] at hlt
    exact lt_irrefl _ hlt
  have e2 := ChangeLaneFailRerouting_dispatchStep _ _ _ hstep
  have hs : ((triggeringCycle clock_31_17).frame.Rerouting r2).1 = true := rfl
  rw [if_pos hs] at e2
  have hok2 : (ChangeLaneFailRerouting (triggeringCycle clock_31_17) S).ok = true := by
    rw [e2]
  have h2 := ApplyRule_snd_of_ok _ _ hok2
  refine ⟨by rw [e2], ?_, ?_⟩
  · rw [h2, LaneBorrowFailRerouting_calls, e2]
  · rw [h2, LaneBorrowFailRerouting_last, e2]
    rfl

/-- C3, refuted as stated: the triggering cycle dispatches at clock time `T = 1.17` with
`cooldown_time = 30`; at `T' = 31.169999999999998` we have `T ≤ T' < T + 30`, exactly and
also against the rounded sum, but the computed difference `T' - T` is 30.0, which is not
below 30, so the same inputs at `T'` dispatch a second time and `last_rerouting_time`
becomes `T'`. -/
theorem cooldown_window_rounding_dispatches :
    (ChangeLaneFailRerouting (triggeringCycle clock_1_17) initialState).exit =
        ChangeLaneExit.dispatched ∧
      (triggeringCycle clock_1_17).config.cooldown_time.val = 30 ∧
      clock_1_17.val ≤ clock_31_17.val ∧
      clock_31_17.val < clock_1_17.val + 30 ∧
      clock_31_17.val < fl (clock_1_17.val + 30) ∧
      (ChangeLaneFailRerouting (triggeringCycle clock_31_17)
        (ApplyRule (triggeringCycle clock_1_17) initialState).2).exit =
        ChangeLaneExit.dispatched ∧
      (ApplyRule (triggeringCycle clock_31_17)
        (ApplyRule (triggeringCycle clock_1_17) initialState).2).2.rerouting_calls =
        (ApplyRule (triggeringCycle clock_1_17) initialState).2.rerouting_calls + 1 ∧
      (ApplyRule (triggeringCycle clock_31_17)
        (ApplyRule (triggeringCycle clock_1_17) initialState).2).2.rerouting.map
          ReroutingStatus.last_rerouting_time = some (some clock_31_17) := by
  have e1 := triggeringCycle_dispatches clock_1_17
  have hok1 : (ChangeLaneFailRerouting (triggeringCycle clock_1_17) initialState).ok = true := by
    rw [e1]
  have h1 := ApplyRule_snd_of_ok _ _ hok1
  have hlast : (ApplyRule (triggeringCycle clock_1_17) initialState).2.rerouting.map
      ReroutingStatus.last_rerouting_time = some (some clock_1_17) := by
    rw [h1, LaneBorrowFailRerouting_last, e1]
    rfl
  have h2 := triggeringCycle_redispatches _ hlast
  refine ⟨by rw [e1], ?_, ?_, ?_, ?_, h2.1, h2.2.1, h2.2.2⟩
  · show (Double.ofNat 30).val = 30
    rw [Double.ofNat_val 30 (by norm_num)]
    norm_num
  · simp only [clock_31_17, clock_1_17, Double.ofScaled_val]
    norm_num
  · simp only [clock_31_17, clock_1_17, Double.ofScaled_val]
    norm_num
  · rw [clock_sum_rounds_up]
    simp only [clock_31_17, Double.ofScaled_val]
    norm_num

/-- C3, amended: if the cascade of an `ApplyRule` cycle at clock time `T = c.now` dispatches
successfully, then after any number of further `ApplyRule` cycles on the same inputs at
clock times whose computed difference to `T` is below `cooldown_time`, one more such cycle
at a clock time `T'` with `T' - T`, as computed in double arithmetic, below `cooldown_time`
returns from the cascade with success at the cooldown check, `ApplyRule` returns
`Status::OK`, the dispatcher call count stays what it was right after the dispatching
cycle, and `last_rerouting_time` still equals `T`. -/
theorem cooldown_blocks_second_dispatch (c : Cycle) (st : State) (earlier : List Double)
    (T' : Double)
    (hd : (ChangeLaneFailRerouting c st).exit = ChangeLaneExit.dispatched)
    (hearlier : ∀ t ∈ earlier, t.sub c.now < c.config.cooldown_time.val)
    (hlt : T'.sub c.now < c.config.cooldown_time.val) :
    (ApplyRule c st).2.rerouting_calls = st.rerouting_calls + 1 ∧
      (ApplyRule c st).2.rerouting.map ReroutingStatus.last_rerouting_time =
        some (some c.now) ∧
      (ChangeLaneFailRerouting { c with now := T' }
        (reevaluate c earlier (ApplyRule c st).2)).ok = true ∧
      (ChangeLaneFailRerouting { c with now := T' }
        (reevaluate c earlier (ApplyRule c st).2)).exit = ChangeLaneExit.cooldown ∧
      (ApplyRule { c with now := T' } (reevaluate c earlier (ApplyRule c st).2)).1 =
        Status.OK ∧
      (ApplyRule { c with now := T' }
        (reevaluate c earlier (ApplyRule c st).2)).2.rerouting_calls =
        (ApplyRule c st).2.rerouting_calls ∧
      (ApplyRule { c with now := T' }
        (reevaluate c earlier (ApplyRule c st).2)).2.rerouting.map
        ReroutingStatus.last_rerouting_time = some (some c.now) := by
  obtain ⟨r, hr⟩ := reachesDispatchStep_of_exit c st (Or.inl hd)
  have e := ChangeLaneFailRerouting_dispatchStep c st r hr
  by_cases hs : (c.frame.Rerouting r).1 = true
  swap
  · rw [e, if_neg hs] at hd
    simp at hd
  rw [if_pos hs] at e
  have hok : (ChangeLaneFailRerouting c st).ok = true := by rw [e]
  have h2 := ApplyRule_snd_of_ok c st hok
  have hcalls : (ApplyRule c st).2.rerouting_calls = st.rerouting_calls + 1 := by
    rw [h2, LaneBorrowFailRerouting_calls, e]
  have hlast : (ApplyRule c st).2.rerouting.map ReroutingStatus.last_rerouting_time =
      some (some c.now) := by
    rw [h2, LaneBorrowFailRerouting_last, e]
    rfl
  obtain ⟨⟨sl_point, hreach, hnear⟩, -, -⟩ := hr
  have hrun := reevaluate_in_cooldown c sl_point c.now hreach hnear earlier
    (ApplyRule c st).2 hearlier hlast
  obtain ⟨r2, hr2, hr2last⟩ : ∃ r2,
      (reevaluate c earlier (ApplyRule c st).2).rerouting = some r2 ∧
        r2.last_rerouting_time = some c.now := by
    cases hq : (reevaluate c earlier (ApplyRule c st).2).rerouting with
    | none => simp [hq] at hrun
    | some r2 => exact ⟨r2, rfl, by simpa [hq] using hrun.2⟩
  have hc := cooldown_cycle c (reevaluate c earlier (ApplyRule c st).2) sl_point r2 c.now T'
    hreach hnear hr2 hr2last hlt
  refine ⟨hcalls, hlast, by rw [hc.1], by rw [hc.1], hc.2.1, ?_, hc.2.2.2⟩
  rw [hc.2.2.1, hrun.1]

/-- Instance of the amended C3 with `T = 100`, `cooldown_time = 30`, no cycle in between and
`T' = T + 1 = 101`: the computed difference is 1, the second cycle does not dispatch and
`last_rerouting_time` is still 100. -/
theorem cooldown_blocks_second_dispatch_witness :
    (ChangeLaneFailRerouting (triggeringCycle (Double.ofNat 100)) initialState).exit =
        ChangeLaneExit.dispatched ∧
      (Double.ofNat 101).sub (triggeringCycle (Double.ofNat 100)).now <
        (triggeringCycle (Double.ofNat 100)).config.cooldown_time.val ∧
      (ApplyRule { triggeringCycle (Double.ofNat 100) with now := Double.ofNat 101 }
        (reevaluate (triggeringCycle (Double.ofNat 100)) []
          (ApplyRule (triggeringCycle (Double.ofNat 100)) initialState).2)).2.rerouting_calls =
        (ApplyRule (triggeringCycle (Double.ofNat 100)) initialState).2.rerouting_calls ∧
      (ApplyRule { triggeringCycle (Double.ofNat 100) with now := Double.ofNat 101 }
        (reevaluate (triggeringCycle (Double.ofNat 100)) []
          (ApplyRule (triggeringCycle (Double.ofNat 100)) initialState).2)).2.rerouting.map
          ReroutingStatus.last_rerouting_time =
        some (some (triggeringCycle (Double.ofNat 100)).now) := by
  have hd : (ChangeLaneFailRerouting (triggeringCycle (Double.ofNat 100)) initialState).exit =
      ChangeLaneExit.dispatched := by rw [triggeringCycle_dispatches]
  have hlt : (Double.ofNat 101).sub (triggeringCycle (Double.ofNat 100)).now <
      (triggeringCycle (Double.ofNat 100)).config.cooldown_time.val := by
    apply sub_lt_of_le_double _ _ 1 _ (by simpa using isF64_intCast 1 (by decide))
    · show (Double.ofNat 101).val - (Double.ofNat 100).val ≤ 1
      rw [Double.ofNat_val 101 (by norm_num), Double.ofNat_val 100 (by norm_num)]
      norm_num
    · show (1 : ℚ) < (Double.ofNat 30).val
      rw [Double.ofNat_val 30 (by norm_num)]
      norm_num
  have h := cooldown_blocks_second_dispatch (triggeringCycle (Double.ofNat 100)) initialState
    [] (Double.ofNat 101) hd (by simp) hlt
  exact ⟨hd, hlt, h.2.2.2.2.2.1, h.2.2.2.2.2.2⟩

/-! ## Lead time -/

theorem roundedLeadTimeCycle_reaches : reachesLeadTimeStep roundedLeadTimeCycle roundedEnd := by
  refine ⟨⟨sampleCorridor_far _ _ _ _ _ _, ?_, rfl, rfl, sampleLane, rfl, rfl⟩, rfl⟩
  show ChangeLaneType.LEFT ≠ ChangeLaneType.FORWARD
  decide

theorem roundedLeadTimeCycle_product :
    roundedLeadTimeCycle.linear_velocity.mul roundedLeadTimeCycle.config.prepare_rerouting_time =
      roundedEnd.s.val := by
  have hx : roundedLeadTimeCycle.linear_velocity.val *
      roundedLeadTimeCycle.config.prepare_rerouting_time.val =
      (3602879701896397 : ℚ) / 2 ^ 55 * 3 := by
    show (Double.ofScaled 3602879701896397 (-55) (by decide)).val * (Double.ofNat 3).val = _
    rw [Double.ofScaled_val, Double.ofNat_val 3 (by norm_num)]
    norm_num
  have hE : exponentOf ((3602879701896397 : ℚ) / 2 ^ 55 * 3) = -2 :=
    exponentOf_eq _ _ (by norm_num) (by norm_num [abs_of_pos]) (by norm_num [abs_of_pos])
  unfold Double.mul
  rw [hx, fl_eq _ (-2) 5404319552844596 hE
    (roundNearestEven_tie_odd _ 5404319552844595 (by norm_num) (by norm_num))]
  simp only [roundedEnd, Double.ofScaled_val]
  norm_num

theorem roundedLeadTimeCycle_bound : leadTimeBound roundedLeadTimeCycle = roundedEnd.s.val := by
  unfold leadTimeBound
  rw [roundedLeadTimeCycle_product]
  have hsmall : ¬ ((2 : ℚ) ^ 1024 ≤ |roundedEnd.s.val|) := by
    simp only [roundedEnd, Double.ofScaled_val]
    norm_num [abs_of_pos]
  have h0 : roundedLeadTimeCycle.reference_line_info.AdcSlBoundary.end_s.val = 0 :=
    Double.zero_val
  unfold Double.add
  rw [if_neg hsmall, h0, zero_add]
  exact fl_of_isF64 _ roundedEnd.s.finite

theorem roundedLeadTimeCycle_dispatches :
    (ChangeLaneFailRerouting roundedLeadTimeCycle initialState).exit =
        ChangeLaneExit.dispatched ∧
      (ChangeLaneFailRerouting roundedLeadTimeCycle initialState).st.rerouting_calls =
        initialState.rerouting_calls + 1 := by
  have hstep : reachesDispatchStep roundedLeadTimeCycle initialState emptyStatus := by
    refine ⟨⟨_, roundedLeadTimeCycle_reaches, ?_⟩, rfl, ?_⟩
    · rw [roundedLeadTimeCycle_bound]
    · rintro ⟨last, hl, -⟩
      simp [emptyStatus] at hl
  have e := ChangeLaneFailRerouting_dispatchStep _ _ _ hstep
  have hs : (roundedLeadTimeCycle.frame.Rerouting emptyStatus).1 = true := rfl
  rw [if_pos hs] at e
  exact ⟨by rw [e], by rw [e]⟩

theorem roundedLeadTimeCycle_exact :
    roundedEnd.s.val > roundedLeadTimeCycle.reference_line_info.AdcSlBoundary.end_s.val +
      roundedLeadTimeCycle.linear_velocity.val *
        roundedLeadTimeCycle.config.prepare_rerouting_time.val := by
  show (Double.ofScaled 1351079888211149 (-52) (by decide)).val >
    Double.zero.val + (Double.ofScaled 3602879701896397 (-55) (by decide)).val *
      (Double.ofNat 3).val
  rw [Double.ofScaled_val, Double.ofScaled_val, Double.zero_val,
    Double.ofNat_val 3 (by norm_num)]
  norm_num

/-- C4, refuted as stated: with speed `v = 0.1`, `prepare_rerouting_time = 3`, `A = 0` and
the end of passage projected at `P = 0.30000000000000004` the cascade reaches the lead-time
test and `P > A + v * t` holds for the values of the doubles, but the bound `A + v * t`
computed in double arithmetic is `0.30000000000000004` itself, the test of line 93 is false
and the dispatcher is called. -/
theorem lead_time_rounding_dispatches :
    reachesLeadTimeStep roundedLeadTimeCycle roundedEnd ∧
      roundedEnd.s.val > roundedLeadTimeCycle.reference_line_info.AdcSlBoundary.end_s.val +
        roundedLeadTimeCycle.linear_velocity.val *
          roundedLeadTimeCycle.config.prepare_rerouting_time.val ∧
      roundedLeadTimeCycle.reference_line_info.AdcSlBoundary.end_s.add
        (roundedLeadTimeCycle.linear_velocity.mul
          roundedLeadTimeCycle.config.prepare_rerouting_time) = roundedEnd.s.val ∧
      (ChangeLaneFailRerouting roundedLeadTimeCycle initialState).exit =
        ChangeLaneExit.dispatched ∧
      (ChangeLaneFailRerouting roundedLeadTimeCycle initialState).st.rerouting_calls =
        initialState.rerouting_calls + 1 :=
  ⟨roundedLeadTimeCycle_reaches, roundedLeadTimeCycle_exact, roundedLeadTimeCycle_bound,
    roundedLeadTimeCycle_dispatches.1, roundedLeadTimeCycle_dispatches.2⟩

/-- C4, amended: when the cascade reaches the lead-time test with projected point `sl_point`
(`P = sl_point.s`, `A = end_s`, `v` the speed, `t = prepare_rerouting_time`), it returns at
that test exactly when `P` exceeds `A + v * t` as computed in double arithmetic (the product
rounded, then the sum rounded), and then with success and the state untouched; when `P` is
at most that computed bound it goes on to the status and cooldown checks, and with the
status present and the cooldown clear the dispatcher is called. -/
theorem lead_time_boundary (c : Cycle) (st : State) (sl_point : SLPoint)
    (h : reachesLeadTimeStep c sl_point) :
    ((ChangeLaneFailRerouting c st).exit = ChangeLaneExit.leadTime ↔
        sl_point.s.val > c.reference_line_info.AdcSlBoundary.end_s.add
          (c.linear_velocity.mul c.config.prepare_rerouting_time)) ∧
      (sl_point.s.val > c.reference_line_info.AdcSlBoundary.end_s.add
          (c.linear_velocity.mul c.config.prepare_rerouting_time) →
        (ChangeLaneFailRerouting c st).ok = true ∧ (ChangeLaneFailRerouting c st).st = st) ∧
      (sl_point.s.val ≤ c.reference_line_info.AdcSlBoundary.end_s.add
          (c.linear_velocity.mul c.config.prepare_rerouting_time) →
        ((ChangeLaneFailRerouting c st).exit = ChangeLaneExit.statusMissing ∨
          (ChangeLaneFailRerouting c st).exit = ChangeLaneExit.cooldown ∨
          (ChangeLaneFailRerouting c st).exit = ChangeLaneExit.dispatchFailed ∨
          (ChangeLaneFailRerouting c st).exit = ChangeLaneExit.dispatched) ∧
        ∀ rerouting, st.rerouting = some rerouting → ¬ inCooldown c rerouting →
          (ChangeLaneFailRerouting c st).st.rerouting_calls = st.rerouting_calls + 1) := by
  by_cases hfar : sl_point.s.val > leadTimeBound c
  · have e := ChangeLaneFailRerouting_leadTimeStep c st sl_point h hfar
    have hfar2 : sl_point.s.val > c.reference_line_info.AdcSlBoundary.end_s.add
        (c.linear_velocity.mul c.config.prepare_rerouting_time) := hfar
    refine ⟨⟨fun _ => hfar2, fun _ => by rw [e]⟩, fun _ => by rw [e]; exact ⟨rfl, rfl⟩, ?_⟩
    intro hle
    exact absurd hfar2 (not_lt.2 hle)
  · have hnear : sl_point.s.val ≤ leadTimeBound c := not_lt.1 hfar
    have hdisp : ∀ rerouting, st.rerouting = some rerouting → ¬ inCooldown c rerouting →
        ((ChangeLaneFailRerouting c st).exit = ChangeLaneExit.dispatchFailed ∨
          (ChangeLaneFailRerouting c st).exit = ChangeLaneExit.dispatched) ∧
        (ChangeLaneFailRerouting c st).st.rerouting_calls = st.rerouting_calls + 1 := by
      intro rerouting hst hclear
      have e := ChangeLaneFailRerouting_dispatchStep c st rerouting
        ⟨⟨sl_point, h, hnear⟩, hst, hclear⟩
      by_cases hs : (c.frame.Rerouting rerouting).1 = true
      · rw [if_pos hs] at e
        rw [e]
        exact ⟨Or.inr rfl, rfl⟩
      · rw [if_neg hs] at e
        rw [e]
        exact ⟨Or.inl rfl, rfl⟩
    have hexit : (ChangeLaneFailRerouting c st).exit = ChangeLaneExit.statusMissing ∨
        (ChangeLaneFailRerouting c st).exit = ChangeLaneExit.cooldown ∨
        (ChangeLaneFailRerouting c st).exit = ChangeLaneExit.dispatchFailed ∨
        (ChangeLaneFailRerouting c st).exit = ChangeLaneExit.dispatched := by
      cases hst : st.rerouting with
      | none =>
        rw [ChangeLaneFailRerouting_statusMissing c st sl_point h hnear hst]
        exact Or.inl rfl
      | some rerouting =>
        by_cases hcool : inCooldown c rerouting
        · rw [ChangeLaneFailRerouting_cooldown c st sl_point rerouting h hnear hst hcool]
          exact Or.inr (Or.inl rfl)
        · exact Or.inr (Or.inr (hdisp rerouting hst hcool).1)
    have hne : (ChangeLaneFailRerouting c st).exit ≠ ChangeLaneExit.leadTime := by
      rcases hexit with e | e | e | e <;> rw [e] <;> decide
    refine ⟨⟨fun e => absurd e hne, fun hgt => absurd hgt hfar⟩,
      fun hgt => absurd hgt hfar, fun _ => ⟨hexit, fun r hst hclear => (hdisp r hst hclear).2⟩⟩

/-- Instance of the amended C4: with `P = 15`, `A = 0`, `v = 10`, `t = 2` the lead-time test
returns exactly if 15 exceeds the computed bound (which is 20). -/
theorem lead_time_boundary_witness :
    reachesLeadTimeStep (triggeringCycle (Double.ofNat 100)) sampleEnd ∧
      ((ChangeLaneFailRerouting (triggeringCycle (Double.ofNat 100)) initialState).exit =
          ChangeLaneExit.leadTime ↔
        sampleEnd.s.val >
          (triggeringCycle (Double.ofNat 100)).reference_line_info.AdcSlBoundary.end_s.add
            ((triggeringCycle (Double.ofNat 100)).linear_velocity.mul
              (triggeringCycle (Double.ofNat 100)).config.prepare_rerouting_time)) :=
  ⟨triggeringCycle_reaches (Double.ofNat 100),
    (lead_time_boundary (triggeringCycle (Double.ofNat 100)) initialState sampleEnd
      (triggeringCycle_reaches (Double.ofNat 100))).1⟩

/-! ## The on-lane test -/

/-- C5, refuted as stated: in the triggering cycle the projected end-of-passage point is on
lane (`IsOnLane` is true) when the cascade reaches the on-lane test, and the dispatcher is
called all the same. -/
theorem on_lane_point_dispatches :
    reachesOnLaneStep (triggeringCycle (Double.ofNat 100)) sampleEnd ∧
      (triggeringCycle (Double.ofNat 100)).reference_line_info.reference_line.IsOnLane
        sampleEnd = true ∧
      (ChangeLaneFailRerouting (triggeringCycle (Double.ofNat 100))
        initialState).st.rerouting_calls = initialState.rerouting_calls + 1 := by
  refine ⟨(triggeringCycle_reaches (Double.ofNat 100)).1, rfl, ?_⟩
  rw [triggeringCycle_dispatches]
  rfl

/-- C5, amended: when the cascade reaches the on-lane test with projected point `sl_point`,
it returns at that test exactly when the point is not on lane (`IsOnLane` is false), and
then with success and the state untouched, so without a dispatcher call. -/
theorem off_lane_point_no_dispatch (c : Cycle) (st : State) (sl_point : SLPoint)
    (h : reachesOnLaneStep c sl_point) :
    ((ChangeLaneFailRerouting c st).exit = ChangeLaneExit.notOnLane ↔
        c.reference_line_info.reference_line.IsOnLane sl_point = false) ∧
      (c.reference_line_info.reference_line.IsOnLane sl_point = false →
        (ChangeLaneFailRerouting c st).ok = true ∧
          (ChangeLaneFailRerouting c st).st = st ∧
          (ChangeLaneFailRerouting c st).st.rerouting_calls = st.rerouting_calls) := by
  have hoff : c.reference_line_info.reference_line.IsOnLane sl_point = false →
      ChangeLaneFailRerouting c st = ⟨true, .notOnLane, st⟩ :=
    ChangeLaneFailRerouting_onLaneStep c st sl_point h
  refine ⟨⟨fun hexit => ?_, fun hf => by rw [hoff hf]⟩,
    fun hf => by rw [hoff hf]; exact ⟨rfl, rfl, rfl⟩⟩
  cases hon : c.reference_line_info.reference_line.IsOnLane sl_point with
  | false => rfl
  | true =>
    exfalso
    rcases exit_of_reachesLeadTimeStep c st sl_point ⟨h, hon⟩ with e | e | e | e | e <;>
      rw [e] at hexit <;> exact absurd hexit (by decide)

/-- Instance of the amended C5: the off-lane cycle returns at the on-lane test. -/
theorem off_lane_point_no_dispatch_witness :
    reachesOnLaneStep (offLaneCycle (Double.ofNat 100)) sampleEnd ∧
      ((ChangeLaneFailRerouting (offLaneCycle (Double.ofNat 100)) initialState).exit =
          ChangeLaneExit.notOnLane ↔
        (offLaneCycle (Double.ofNat 100)).reference_line_info.reference_line.IsOnLane
          sampleEnd = false) :=
  ⟨offLaneCycle_reaches (Double.ofNat 100),
    (off_lane_point_no_dispatch (offLaneCycle (Double.ofNat 100)) initialState sampleEnd
      (offLaneCycle_reaches (Double.ofNat 100))).1⟩

/-! ## End-to-end scenario 3 -/

/-- C6, refuted as stated: scenario 3 with `IsOnLane = false` (no corridor near the
destination, a lane-change action, on segment, `CanExit` false, projection succeeding,
speed 10, `prepare_rerouting_time = 2`, `P = A + 15`, status present without
`last_rerouting_time`, a dispatcher that succeeds) ends with no dispatcher call and
`last_rerouting_time` still unset. -/
theorem scenario3_off_lane_no_dispatch :
    reachesOnLaneStep (offLaneCycle (Double.ofNat 100)) sampleEnd ∧
      (offLaneCycle (Double.ofNat 100)).reference_line_info.reference_line.IsOnLane
        sampleEnd = false ∧
      (offLaneCycle (Double.ofNat 100)).linear_velocity.val = 10 ∧
      (offLaneCycle (Double.ofNat 100)).config.prepare_rerouting_time.val = 2 ∧
      sampleEnd.s.val =
        (offLaneCycle (Double.ofNat 100)).reference_line_info.AdcSlBoundary.end_s.val + 15 ∧
      initialState.rerouting = some emptyStatus ∧
      emptyStatus.last_rerouting_time = none ∧
      ((offLaneCycle (Double.ofNat 100)).frame.Rerouting emptyStatus).1 = true ∧
      (ChangeLaneFailRerouting (offLaneCycle (Double.ofNat 100))
        initialState).st.rerouting_calls = 0 ∧
      (ChangeLaneFailRerouting (offLaneCycle (Double.ofNat 100))
        initialState).st.rerouting.map ReroutingStatus.last_rerouting_time = some none ∧
      (ApplyRule (offLaneCycle (Double.ofNat 100)) initialState).2.rerouting_calls = 0 ∧
      (ApplyRule (offLaneCycle (Double.ofNat 100)) initialState).2.rerouting.map
        ReroutingStatus.last_rerouting_time = some none := by
  have e := ChangeLaneFailRerouting_onLaneStep (offLaneCycle (Double.ofNat 100)) initialState
    sampleEnd (offLaneCycle_reaches (Double.ofNat 100)) rfl
  have hok : (ChangeLaneFailRerouting (offLaneCycle (Double.ofNat 100)) initialState).ok =
      true := by rw [e]
  have h2 := ApplyRule_snd_of_ok (offLaneCycle (Double.ofNat 100)) initialState hok
  refine ⟨offLaneCycle_reaches (Double.ofNat 100), rfl, ?_, ?_, ?_, rfl, rfl, rfl, ?_, ?_, ?_,
    ?_⟩
  · show (Double.ofNat 10).val = 10
    rw [Double.ofNat_val 10 (by norm_num)]
    norm_num
  · show (Double.ofNat 2).val = 2
    rw [Double.ofNat_val 2 (by norm_num)]
    norm_num
  · show (Double.ofNat 15).val = Double.zero.val + 15
    rw [Double.ofNat_val 15 (by norm_num), Double.zero_val]
    norm_num
  · rw [e]; rfl
  · rw [e]; rfl
  · rw [h2, LaneBorrowFailRerouting_calls, e]; rfl
  · rw [h2, LaneBorrowFailRerouting_last, e]; rfl

/-- C6, amended: in scenario 3 (no corridor near the destination, a lane-change action, on
segment, `CanExit` false, projection succeeding, speed 10, `prepare_rerouting_time = 2`,
`P = A + 15`, status present without `last_rerouting_time`, a dispatcher that succeeds)
the dispatcher is called and `last_rerouting_time` becomes the current clock time when
`IsOnLane` is true; when `IsOnLane` is false the cascade returns success at the on-lane test
with no dispatcher call and the state untouched. -/
theorem scenario3_dispatch (c : Cycle) (st : State) (sl_point : SLPoint)
    (rerouting : ReroutingStatus)
    (h : reachesOnLaneStep c sl_point)
    (hv : c.linear_velocity.val = 10) (ht : c.config.prepare_rerouting_time.val = 2)
    (hP : sl_point.s.val = c.reference_line_info.AdcSlBoundary.end_s.val + 15)
    (hst : st.rerouting = some rerouting) (hlast : rerouting.last_rerouting_time = none)
    (hdisp : (c.frame.Rerouting rerouting).1 = true) :
    (c.reference_line_info.reference_line.IsOnLane sl_point = true →
        (ChangeLaneFailRerouting c st).ok = true ∧
          (ChangeLaneFailRerouting c st).st.rerouting_calls = st.rerouting_calls + 1 ∧
          (ChangeLaneFailRerouting c st).st.rerouting.map
            ReroutingStatus.last_rerouting_time = some (some c.now) ∧
          (ApplyRule c st).1 = Status.OK ∧
          (ApplyRule c st).2.rerouting_calls = st.rerouting_calls + 1 ∧
          (ApplyRule c st).2.rerouting.map ReroutingStatus.last_rerouting_time =
            some (some c.now)) ∧
      (c.reference_line_info.reference_line.IsOnLane sl_point = false →
        (ChangeLaneFailRerouting c st).ok = true ∧
          (ChangeLaneFailRerouting c st).st = st) := by
  refine ⟨fun hon => ?_, fun hoff => ?_⟩
  · have hnear : sl_point.s.val ≤ leadTimeBound c := by
      have h20 : fl 20 = 20 := fl_of_isF64 20 (by simpa using isF64_intCast 20 (by decide))
      have hb : ¬ ((2 : ℚ) ^ 1024 ≤ |(20 : ℚ)|) := by norm_num
      have hmul : c.linear_velocity.mul c.config.prepare_rerouting_time = 20 := by
        unfold Double.mul
        rw [hv, ht]
        norm_num [h20]
      unfold leadTimeBound Double.add
      rw [hmul, if_neg hb]
      apply le_fl _ _ sl_point.s.finite
      rw [hP]
      linarith
    have hclear : ¬ inCooldown c rerouting := by
      rintro ⟨last, hl, -⟩
      rw [hlast] at hl
      exact absurd hl (by simp)
    have e := ChangeLaneFailRerouting_dispatchStep c st rerouting
      ⟨⟨sl_point, ⟨h, hon⟩, hnear⟩, hst, hclear⟩
    rw [if_pos hdisp] at e
    have hok : (ChangeLaneFailRerouting c st).ok = true := by rw [e]
    have h2 := ApplyRule_snd_of_ok c st hok
    refine ⟨hok, by rw [e], by rw [e]; rfl, ?_, ?_, ?_⟩
    · apply ApplyRule_fst_of_ok c st hok
      rw [LaneBorrowFailRerouting_ok, e]
      rfl
    · rw [h2, LaneBorrowFailRerouting_calls, e]
    · rw [h2, LaneBorrowFailRerouting_last, e]
      rfl
  · rw [ChangeLaneFailRerouting_onLaneStep c st sl_point h hoff]
    exact ⟨rfl, rfl⟩

/-- Instance of the amended C6: the triggering cycle at clock time 100 dispatches and
records 100. -/
theorem scenario3_dispatch_witness :
    reachesOnLaneStep (triggeringCycle (Double.ofNat 100)) sampleEnd ∧
      (ApplyRule (triggeringCycle (Double.ofNat 100)) initialState).2.rerouting_calls =
        initialState.rerouting_calls + 1 ∧
      (ApplyRule (triggeringCycle (Double.ofNat 100)) initialState).2.rerouting.map
        ReroutingStatus.last_rerouting_time =
          some (some (triggeringCycle (Double.ofNat 100)).now) := by
  have h := (scenario3_dispatch (triggeringCycle (Double.ofNat 100)) initialState sampleEnd
    emptyStatus (triggeringCycle_reaches (Double.ofNat 100)).1
    (by
      show (Double.ofNat 10).val = 10
      rw [Double.ofNat_val 10 (by norm_num)]
      norm_num)
    (by
      show (Double.ofNat 2).val = 2
      rw [Double.ofNat_val 2 (by norm_num)]
      norm_num)
    (by
      show (Double.ofNat 15).val = Double.zero.val + 15
      rw [Double.ofNat_val 15 (by norm_num), Double.zero_val]
      norm_num) rfl rfl rfl).1 rfl
  exact ⟨(triggeringCycle_reaches (Double.ofNat 100)).1, h.2.2.2.2.1, h.2.2.2.2.2⟩

/-! ## Projection failure -/

/-- C7: when no candidate corridor has reached the destination or is less than 20.0 from
it, `NextAction` is not `FORWARD`, the vehicle is on the segment, `CanExit()` is false, the
end waypoint has a lane and `XYToSL` fails on its smooth point, then
`ChangeLaneFailRerouting` returns failure, `ApplyRule` returns the `PLANNING_ERROR` status
(not `Status::OK`), and the state, dispatcher call count included, is as before. -/
theorem projection_failure_is_error (c : Cycle) (st : State) (lane : LaneInfo)
    (hdest : ∀ r ∈ c.frame.reference_line_info,
      r.ReachedDestination = false ∧ ¬ r.SDistanceToDestination.val < 20)
    (haction : c.reference_line_info.Lanes.NextAction ≠ ChangeLaneType.FORWARD)
    (hseg : c.reference_line_info.Lanes.IsOnSegment = true)
    (hexit : c.reference_line_info.Lanes.CanExit = false)
    (hlane : c.reference_line_info.Lanes.RouteEndWaypoint.lane = some lane)
    (hproj : c.reference_line_info.reference_line.XYToSL
      (lane.GetSmoothPoint c.reference_line_info.Lanes.RouteEndWaypoint.s) = none) :
    (ChangeLaneFailRerouting c st).ok = false ∧
      (ChangeLaneFailRerouting c st).exit = ChangeLaneExit.projectionFailed ∧
      (ApplyRule c st).1.code = ErrorCode.PLANNING_ERROR ∧
      (ApplyRule c st).1 ≠ Status.OK ∧
      (ApplyRule c st).2 = st ∧
      (ApplyRule c st).2.rerouting_calls = st.rerouting_calls := by
  have h0 : nearDestination c.frame.reference_line_info = false := by
    rw [Bool.eq_false_iff, Ne, nearDestination_iff]
    rintro ⟨r, hr, hp⟩
    rcases hp with hp | hp
    · rw [(hdest r hr).1] at hp
      exact absurd hp (by decide)
    · exact (hdest r hr).2 hp
  have e : ChangeLaneFailRerouting c st = ⟨false, .projectionFailed, st⟩ := by
    simp [ChangeLaneFailRerouting, h0, haction, hseg, hexit, hlane, hproj]
  have hok : (ChangeLaneFailRerouting c st).ok = false := by rw [e]
  have h1 := ApplyRule_fst_of_fail c st hok
  have h2 := ApplyRule_snd_of_fail c st hok
  refine ⟨hok, by rw [e], by rw [h1], ?_, by rw [h2, e], by rw [h2, e]⟩
  rw [h1]
  decide

/-- Instance of C7: the unprojectable cycle ends in `PLANNING_ERROR`. -/
theorem projection_failure_is_error_witness :
    (unprojectableCycle (Double.ofNat 100)).reference_line_info.reference_line.XYToSL
        (sampleLane.GetSmoothPoint (Double.ofNat 15)) = none ∧
      (ApplyRule (unprojectableCycle (Double.ofNat 100)) initialState).1.code =
        ErrorCode.PLANNING_ERROR :=
  ⟨rfl, (projection_failure_is_error (unprojectableCycle (Double.ofNat 100)) initialState
    sampleLane
    (by
      intro r hr
      have hr2 : r = sampleCorridor (Double.ofNat 500) .LEFT (Double.ofNat 15) Double.zero
          false true origin := by
        simpa [unprojectableCycle, sampleCycle] using hr
      subst hr2
      refine ⟨rfl, ?_⟩
      show ¬ (Double.ofNat 500).val < 20
      rw [Double.ofNat_val 500 (by norm_num)]
      norm_num)
    (by
      show ChangeLaneType.LEFT ≠ ChangeLaneType.FORWARD
      decide) rfl rfl rfl rfl).2.2.1⟩

/-! ## Dispatch outcome -/

/-- C8: when the cascade reaches the dispatcher call with the status `rerouting` present:
if the dispatcher reports failure, `ChangeLaneFailRerouting` returns failure and
`last_rerouting_time` is whatever the dispatcher left, hence exactly as before the cycle
for a dispatcher that does not write that field; if the dispatcher reports success,
`ChangeLaneFailRerouting` returns success and `last_rerouting_time` is the clock value `now`
of this cycle.  Either way the dispatcher was called once. -/
theorem dispatch_outcome (c : Cycle) (st : State) (rerouting : ReroutingStatus)
    (h : reachesDispatchStep c st rerouting) :
    ((c.frame.Rerouting rerouting).1 = false →
        (ChangeLaneFailRerouting c st).ok = false ∧
          (ChangeLaneFailRerouting c st).st.rerouting_calls = st.rerouting_calls + 1 ∧
          (ChangeLaneFailRerouting c st).st.rerouting.map
            ReroutingStatus.last_rerouting_time =
            some (c.frame.Rerouting rerouting).2.last_rerouting_time ∧
          ((c.frame.Rerouting rerouting).2.last_rerouting_time =
              rerouting.last_rerouting_time →
            (ChangeLaneFailRerouting c st).st.rerouting.map
              ReroutingStatus.last_rerouting_time =
              st.rerouting.map ReroutingStatus.last_rerouting_time)) ∧
      ((c.frame.Rerouting rerouting).1 = true →
        (ChangeLaneFailRerouting c st).ok = true ∧
          (ChangeLaneFailRerouting c st).st.rerouting_calls = st.rerouting_calls + 1 ∧
          (ChangeLaneFailRerouting c st).st.rerouting.map
            ReroutingStatus.last_rerouting_time = some (some c.now)) := by
  have e := ChangeLaneFailRerouting_dispatchStep c st rerouting h
  have hst : st.rerouting = some rerouting := h.2.1
  refine ⟨fun hf => ?_, fun hs => ?_⟩
  · rw [if_neg (by rw [hf]; decide)] at e
    rw [e, hst]
    refine ⟨rfl, rfl, rfl, fun hkeep => ?_⟩
    simp [hkeep]
  · rw [if_pos hs] at e
    rw [e]
    exact ⟨rfl, rfl, rfl⟩

theorem failingDispatchCycle_reaches (now : Double) :
    reachesDispatchStep (failingDispatchCycle now) initialState emptyStatus := by
  refine ⟨⟨sampleEnd, ⟨⟨sampleCorridor_far _ _ _ _ _ _, ?_, rfl, rfl, sampleLane, rfl, rfl⟩,
    rfl⟩, ?_⟩, rfl, ?_⟩
  · show ChangeLaneType.LEFT ≠ ChangeLaneType.FORWARD
    decide
  · show (Double.ofNat 15).val ≤ _
    rw [failingDispatchCycle, sampleCycle_leadTimeBound, Double.ofNat_val 15 (by norm_num)]
    norm_num
  · rintro ⟨last, hl, -⟩
    simp [emptyStatus] at hl

/-- Instance of C8: a failing dispatch at clock time 100 leaves `last_rerouting_time`
unset. -/
theorem dispatch_outcome_witness :
    reachesDispatchStep (failingDispatchCycle (Double.ofNat 100)) initialState emptyStatus ∧
      ((failingDispatchCycle (Double.ofNat 100)).frame.Rerouting emptyStatus).1 = false ∧
      (ChangeLaneFailRerouting (failingDispatchCycle (Double.ofNat 100)) initialState).ok = false ∧
      (ChangeLaneFailRerouting (failingDispatchCycle (Double.ofNat 100))
        initialState).st.rerouting.map ReroutingStatus.last_rerouting_time = some none := by
  have h := (dispatch_outcome (failingDispatchCycle (Double.ofNat 100)) initialState emptyStatus
    (failingDispatchCycle_reaches (Double.ofNat 100))).1 rfl
  exact ⟨failingDispatchCycle_reaches (Double.ofNat 100), rfl, h.1, h.2.2.2 rfl⟩

/-! ## The proximity trigger -/

theorem ApplyRule_latch (c : Cycle) (st : State) (h : st.is_rerouting_ = true) :
    (ApplyRule c st).2.is_rerouting_ = true := by
  cases hok : (ChangeLaneFailRerouting c st).ok with
  | false => rw [ApplyRule_snd_of_fail c st hok, ChangeLaneFailRerouting_latch, h]
  | true =>
    rw [ApplyRule_snd_of_ok c st hok]
    exact LaneBorrowFailRerouting_latch c _ (by rw [ChangeLaneFailRerouting_latch, h])

theorem proximityFires_latch (c : Cycle) (st : State) (h : proximityFires c st = true) :
    (ApplyRule c st).2.is_rerouting_ = true := by
  simp only [proximityFires, Bool.and_eq_true, decide_eq_true_eq] at h
  rw [ApplyRule_snd_of_ok c st h.1]
  exact LaneBorrowFailRerouting_fired_latch c _ h.2

theorem proximityFires_of_latch (c : Cycle) (st : State) (h : st.is_rerouting_ = true) :
    proximityFires c st = false := by
  have h1 : (ChangeLaneFailRerouting c st).st.is_rerouting_ = true := by
    rw [ChangeLaneFailRerouting_latch, h]
  simp [proximityFires, (LaneBorrowFailRerouting_of_latch c _ h1).2]

theorem proximityWrites_of_latch (ticks : List Tick) :
    ∀ st : State, st.is_rerouting_ = true → proximityWrites ticks st = 0 := by
  induction ticks with
  | nil => intro st _; rfl
  | cons t ts ih =>
    intro st h
    have he : (t.enter st).is_rerouting_ = true := h
    simp only [proximityWrites, proximityFires_of_latch t.cycle (t.enter st) he,
      Bool.false_eq_true, if_false, Nat.zero_add]
    exact ih _ (ApplyRule_latch t.cycle (t.enter st) he)

theorem proximityWrites_le_one (ticks : List Tick) :
    ∀ st : State, proximityWrites ticks st ≤ 1 := by
  induction ticks with
  | nil => intro st; exact Nat.zero_le 1
  | cons t ts ih =>
    intro st
    by_cases hf : proximityFires t.cycle (t.enter st) = true
    · simp only [proximityWrites, hf, if_true]
      rw [proximityWrites_of_latch ts _ (proximityFires_latch t.cycle (t.enter st) hf)]
    · rw [Bool.not_eq_true] at hf
      simp only [proximityWrites, hf, Bool.false_eq_true, if_false, Nat.zero_add]
      exact ih _

/-- C9: with the latch `is_rerouting_` set, `LaneBorrowFailRerouting` leaves the whole state
(waypoint list, end pose, `need_rerouting`, the latch) exactly as it was, for every vehicle
position, and does not return through the writing branch; a run of cycles started from
such a state has no cycle in which the proximity trigger writes the payload, and a run
started from any state has at most one, even when other components rewrite the shared
status between cycles. -/
theorem proximity_one_shot (c : Cycle) (st : State) (ticks : List Tick)
    (hlatch : st.is_rerouting_ = true) :
    (LaneBorrowFailRerouting c st).st = st ∧
      (LaneBorrowFailRerouting c st).st.is_rerouting_ = true ∧
      (LaneBorrowFailRerouting c st).exit ≠ LaneBorrowExit.fired ∧
      proximityWrites ticks st = 0 ∧
      ∀ st0 : State, proximityWrites ticks st0 ≤ 1 := by
  have h := LaneBorrowFailRerouting_of_latch c st hlatch
  exact ⟨h.1, by rw [h.1, hlatch], h.2, proximityWrites_of_latch ticks st hlatch,
    proximityWrites_le_one ticks⟩

/-- Instance of C9: with the latch set and the vehicle standing on the target point, the
proximity trigger changes nothing, and two further cycles write nothing. -/
theorem proximity_one_shot_witness :
    latchedState.is_rerouting_ = true ∧
      (LaneBorrowFailRerouting (cruisingCycle target_point) latchedState).st = latchedState ∧
      proximityWrites [⟨id, cruisingCycle target_point⟩, ⟨id, cruisingCycle target_point⟩]
        latchedState = 0 := by
  have h := proximity_one_shot (cruisingCycle target_point) latchedState
    [⟨id, cruisingCycle target_point⟩, ⟨id, cruisingCycle target_point⟩] rfl
  exact ⟨rfl, h.1, h.2.2.2.1⟩


/-- C11, refuted as stated: with the status present and the latch unset, (a) at the
vehicle position (`target_point.x + 2`, `target_point.y`) the planar distance to
(423866.1667887506, 4438129.189725632) exceeds 2.0, and (b) at the position one unit in
the last place further north the planar distance exceeds 2.0 both to that decimal point and
to the doubles of `target_point`; in both cases the distance computed in double arithmetic
is exactly 2.0, the test `distance > 2` is false and the trigger fires, setting the
latch. -/
theorem proximity_condition_rounding_fires :
    initialState.rerouting = some emptyStatus ∧
      initialState.is_rerouting_ = false ∧
      Real.sqrt
        ((((423866.1667887506 : ℚ) -
            (cruisingCycle eastPoint).reference_line_info.vehicle_state.x.val : ℚ) : ℝ) ^ 2 +
          (((4438129.189725632 : ℚ) -
            (cruisingCycle eastPoint).reference_line_info.vehicle_state.y.val : ℚ) : ℝ) ^ 2)
        > 2 ∧
      (LaneBorrowFailRerouting (cruisingCycle eastPoint) initialState).exit =
        LaneBorrowExit.fired ∧
      (LaneBorrowFailRerouting (cruisingCycle eastPoint) initialState).st.is_rerouting_ =
        true ∧
      Real.sqrt
        ((((423866.1667887506 : ℚ) -
            (cruisingCycle eastPointUp).reference_line_info.vehicle_state.x.val : ℚ) : ℝ) ^ 2 +
          (((4438129.189725632 : ℚ) -
            (cruisingCycle eastPointUp).reference_line_info.vehicle_state.y.val : ℚ) : ℝ) ^ 2)
        > 2 ∧
      Real.sqrt
        (((target_point.x.val -
            (cruisingCycle eastPointUp).reference_line_info.vehicle_state.x.val : ℚ) : ℝ) ^ 2 +
          ((target_point.y.val -
            (cruisingCycle eastPointUp).reference_line_info.vehicle_state.y.val : ℚ) : ℝ) ^ 2)
        > 2 ∧
      (LaneBorrowFailRerouting (cruisingCycle eastPointUp) initialState).exit =
        LaneBorrowExit.fired ∧
      (LaneBorrowFailRerouting (cruisingCycle eastPointUp) initialState).st.is_rerouting_ =
        true := by
  have e1 := LaneBorrowFailRerouting_fires (cruisingCycle eastPoint) initialState emptyStatus
    rfl (not_lt.2 (le_of_eq sampleDistanceTo_eastPoint)) rfl
  have e2 := LaneBorrowFailRerouting_fires (cruisingCycle eastPointUp) initialState emptyStatus
    rfl (not_lt.2 (le_of_eq sampleDistanceTo_eastPointUp)) rfl
  have hx : (cruisingCycle eastPoint).reference_line_info.vehicle_state.x.val =
      (7281999656692629 : ℚ) / 2 ^ 34 := by
    show (Double.ofScaled 7281999656692629 (-34) (by decide)).val = _
    rw [Double.ofScaled_val]
    norm_num
  have hy : (cruisingCycle eastPoint).reference_line_info.vehicle_state.y.val =
      (2382702465661821 : ℚ) / 2 ^ 29 := by
    show (Double.ofScaled 2382702465661821 (-29) (by decide)).val = _
    rw [Double.ofScaled_val]
    norm_num
  have hxu : (cruisingCycle eastPointUp).reference_line_info.vehicle_state.x.val =
      (7281999656692629 : ℚ) / 2 ^ 34 := hx
  have hyu : (cruisingCycle eastPointUp).reference_line_info.vehicle_state.y.val =
      (4765404931323643 : ℚ) / 2 ^ 30 := by
    show (Double.ofScaled 4765404931323643 (-30) (by decide)).val = _
    rw [Double.ofScaled_val]
    norm_num
  have htx : target_point.x.val = (7281965296954261 : ℚ) / 2 ^ 34 := by
    simp only [target_point, Double.ofScaled_val]
    norm_num
  have hty : target_point.y.val = (2382702465661821 : ℚ) / 2 ^ 29 := by
    simp only [target_point, Double.ofScaled_val]
    norm_num
  refine ⟨rfl, rfl, ?_, by rw [e1], by rw [e1], ?_, ?_, by rw [e2], by rw [e2]⟩
  · rw [gt_iff_lt, Real.lt_sqrt (by norm_num), hx, hy]
    norm_num
  · rw [gt_iff_lt, Real.lt_sqrt (by norm_num), hxu, hyu]
    norm_num
  · rw [gt_iff_lt, Real.lt_sqrt (by norm_num), hxu, hyu, htx, hty]
    norm_num

/-- C11, amended: with the rerouting status present, `LaneBorrowFailRerouting` does nothing
(status and latch exactly as before, result success) if and only if the distance from
`target_point` to the vehicle position, as `Vec2d::DistanceTo` computes it in double
arithmetic, exceeds 2 or the latch is already set; when that computed distance is exactly
2.0 and the latch is unset it returns through the writing branch, setting `need_rerouting`
and the latch. -/
theorem proximity_trigger_condition (c : Cycle) (st : State) (rerouting : ReroutingStatus)
    (hst : st.rerouting = some rerouting) :
    (((LaneBorrowFailRerouting c st).st.rerouting = st.rerouting ∧
          (LaneBorrowFailRerouting c st).st.is_rerouting_ = st.is_rerouting_ ∧
          (LaneBorrowFailRerouting c st).ok = true) ↔
        (c.DistanceTo target_point
            ⟨c.reference_line_info.vehicle_state.x, c.reference_line_info.vehicle_state.y⟩ > 2 ∨
          st.is_rerouting_ = true)) ∧
      (c.DistanceTo target_point
          ⟨c.reference_line_info.vehicle_state.x, c.reference_line_info.vehicle_state.y⟩ = 2 →
        st.is_rerouting_ = false →
        (LaneBorrowFailRerouting c st).exit = LaneBorrowExit.fired ∧
          (LaneBorrowFailRerouting c st).st.is_rerouting_ = true ∧
          (LaneBorrowFailRerouting c st).st.rerouting.map ReroutingStatus.need_rerouting =
            some true) := by
  refine ⟨⟨fun hsame => ?_, fun hcond => ?_⟩, fun heq hl => ?_⟩
  · by_contra hcon
    rw [not_or] at hcon
    have hl : st.is_rerouting_ = false := by simpa using hcon.2
    have e := LaneBorrowFailRerouting_fires c st rerouting hst hcon.1 hl
    have h2 := hsame.2.1
    rw [e, hl] at h2
    simp at h2
  · have e := LaneBorrowFailRerouting_noTrigger c st rerouting hst hcond
    rw [e]
    exact ⟨rfl, rfl, rfl⟩
  · have e := LaneBorrowFailRerouting_fires c st rerouting hst
      (by rw [heq]; exact lt_irrefl 2) hl
    rw [e]
    exact ⟨rfl, rfl, rfl⟩

/-- Instance of the amended C11: the vehicle at (`target_point.x + 2`, `target_point.y`),
computed distance exactly 2.0, latch unset: the trigger fires. -/
theorem proximity_trigger_condition_witness :
    initialState.rerouting = some emptyStatus ∧
      (cruisingCycle eastPoint).DistanceTo target_point
        ⟨(cruisingCycle eastPoint).reference_line_info.vehicle_state.x,
          (cruisingCycle eastPoint).reference_line_info.vehicle_state.y⟩ = 2 ∧
      (LaneBorrowFailRerouting (cruisingCycle eastPoint) initialState).exit =
        LaneBorrowExit.fired :=
  ⟨rfl, sampleDistanceTo_eastPoint,
    ((proximity_trigger_condition (cruisingCycle eastPoint) initialState emptyStatus rfl).2
      sampleDistanceTo_eastPoint rfl).1⟩

/-! ## The proximity trigger inside `ApplyRule` -/

theorem ChangeLaneFailRerouting_present (c : Cycle) (st : State) (r : ReroutingStatus)
    (hst : st.rerouting = some r) :
    ∃ r1, (ChangeLaneFailRerouting c st).st.rerouting = some r1 := by
  rcases ChangeLaneFailRerouting_cases c st with h | ⟨r2, hr⟩
  · exact ⟨r, by rw [h, hst]⟩
  · rw [ChangeLaneFailRerouting_dispatchStep c st r2 hr]
    split
    · exact ⟨_, rfl⟩
    · exact ⟨_, rfl⟩

theorem ApplyRule_fst_of_borrow_fail (c : Cycle) (st : State)
    (h1 : (ChangeLaneFailRerouting c st).ok = true)
    (h2 : (LaneBorrowFailRerouting c (ChangeLaneFailRerouting c st).st).ok = false) :
    (ApplyRule c st).1 =
      ⟨ErrorCode.PLANNING_ERROR, "In un-successful lane change case, rerouting failed"⟩ := by
  unfold ApplyRule
  simp [h1, h2]

/-- C12, refuted as stated: in the unprojectable cycle with the vehicle standing on the
target point (computed distance 0, and planar distance to
(423866.1667887506, 4438129.189725632) below 2), the status present and the latch unset,
the cascade reports failure and after `ApplyRule` the state is what it was: latch unset,
`need_rerouting` false, no payload. -/
theorem proximity_trigger_skipped_on_failure :
    initialState.rerouting = some emptyStatus ∧
      initialState.is_rerouting_ = false ∧
      Real.sqrt
        ((((423866.1667887506 : ℚ) -
            (unprojectableCycleAt target_point).reference_line_info.vehicle_state.x.val : ℚ)
            : ℝ) ^ 2 +
          (((4438129.189725632 : ℚ) -
            (unprojectableCycleAt target_point).reference_line_info.vehicle_state.y.val : ℚ)
            : ℝ) ^ 2) ≤ 2 ∧
      (unprojectableCycleAt target_point).DistanceTo target_point
        ⟨(unprojectableCycleAt target_point).reference_line_info.vehicle_state.x,
          (unprojectableCycleAt target_point).reference_line_info.vehicle_state.y⟩ ≤ 2 ∧
      (ChangeLaneFailRerouting (unprojectableCycleAt target_point) initialState).ok = false ∧
      (ApplyRule (unprojectableCycleAt target_point) initialState).2.is_rerouting_ = false ∧
      (ApplyRule (unprojectableCycleAt target_point) initialState).2.rerouting =
        some ⟨none, false, none⟩ := by
  have h0 : nearDestination (unprojectableCycleAt target_point).frame.reference_line_info =
      false := sampleCorridor_far _ _ _ _ _ _
  have e : ChangeLaneFailRerouting (unprojectableCycleAt target_point) initialState =
      ⟨false, .projectionFailed, initialState⟩ := by
    unfold ChangeLaneFailRerouting
    rw [h0]
    rfl
  have h2 := ApplyRule_snd_of_fail (unprojectableCycleAt target_point) initialState
    (by rw [e])
  have htx : (unprojectableCycleAt target_point).reference_line_info.vehicle_state.x.val =
      (7281965296954261 : ℚ) / 2 ^ 34 := by
    show (Double.ofScaled 7281965296954261 (-34) (by decide)).val = _
    rw [Double.ofScaled_val]
    norm_num
  have hty : (unprojectableCycleAt target_point).reference_line_info.vehicle_state.y.val =
      (2382702465661821 : ℚ) / 2 ^ 29 := by
    show (Double.ofScaled 2382702465661821 (-29) (by decide)).val = _
    rw [Double.ofScaled_val]
    norm_num
  refine ⟨rfl, rfl, ?_, ?_, by rw [e], by rw [h2, e]; rfl, by rw [h2, e]; rfl⟩
  · rw [Real.sqrt_le_left (by norm_num), htx, hty]
    norm_num
  · show sampleDistanceTo target_point target_point ≤ 2
    rw [sampleDistanceTo_self]
    norm_num

/-- C12, amended: with the status present, the latch unset and the distance from
`target_point` to the vehicle position, as `Vec2d::DistanceTo` computes it in double
arithmetic, at most 2: in every `ApplyRule` cycle in which the cascade returns success (at
whichever guard), `ApplyRule` returns `Status::OK` and afterwards the payload is the fixed
waypoint and end pose, `need_rerouting` is true and the latch is set; in a cycle in which
the cascade reports failure, `ApplyRule` returns the planning error with the state as the
cascade left it, the latch still unset. -/
theorem proximity_trigger_after_cascade (c : Cycle) (st : State) (rerouting : ReroutingStatus)
    (hst : st.rerouting = some rerouting) (hlatch : st.is_rerouting_ = false)
    (hdist : c.DistanceTo target_point
      ⟨c.reference_line_info.vehicle_state.x, c.reference_line_info.vehicle_state.y⟩ ≤ 2) :
    ((ChangeLaneFailRerouting c st).ok = true →
        (ApplyRule c st).1 = Status.OK ∧
          (ApplyRule c st).2.is_rerouting_ = true ∧
          (ApplyRule c st).2.rerouting.map ReroutingStatus.need_rerouting = some true ∧
          (ApplyRule c st).2.rerouting.map ReroutingStatus.lane_follow_command =
            some (some
              { way_point := [fixed_way_point]
                end_pose := some ⟨some end_pose_x, some end_pose_y⟩ })) ∧
      ((ChangeLaneFailRerouting c st).ok = false →
        (ApplyRule c st).1.code = ErrorCode.PLANNING_ERROR ∧
          (ApplyRule c st).2 = (ChangeLaneFailRerouting c st).st ∧
          (ApplyRule c st).2.is_rerouting_ = false) := by
  refine ⟨fun hok => ?_, fun hfail => ?_⟩
  · obtain ⟨r1, hr1⟩ := ChangeLaneFailRerouting_present c st rerouting hst
    have hl1 : (ChangeLaneFailRerouting c st).st.is_rerouting_ = false := by
      rw [ChangeLaneFailRerouting_latch, hlatch]
    have e := LaneBorrowFailRerouting_fires c (ChangeLaneFailRerouting c st).st r1 hr1
      (not_lt.2 hdist) hl1
    have h2 := ApplyRule_snd_of_ok c st hok
    refine ⟨ApplyRule_fst_of_ok c st hok (by rw [e]), by rw [h2, e], by rw [h2, e]; rfl,
      by rw [h2, e]; rfl⟩
  · have h1 := ApplyRule_fst_of_fail c st hfail
    have h2 := ApplyRule_snd_of_fail c st hfail
    exact ⟨by rw [h1], h2, by rw [h2, ChangeLaneFailRerouting_latch, hlatch]⟩

theorem cruisingCycle_ok (pos : Vec2d) (st : State) :
    (ChangeLaneFailRerouting (cruisingCycle pos) st).ok = true := by
  have h0 : nearDestination (cruisingCycle pos).frame.reference_line_info = false :=
    sampleCorridor_far _ _ _ _ _ _
  unfold ChangeLaneFailRerouting
  rw [h0]
  rfl

/-- Instance of the amended C12: a forward cycle with the vehicle on the target point ends
with the latch set. -/
theorem proximity_trigger_after_cascade_witness :
    (ChangeLaneFailRerouting (cruisingCycle target_point) initialState).ok = true ∧
      (ApplyRule (cruisingCycle target_point) initialState).2.is_rerouting_ = true :=
  ⟨cruisingCycle_ok target_point initialState,
    ((proximity_trigger_after_cascade (cruisingCycle target_point) initialState emptyStatus
      rfl rfl
      (by
        show sampleDistanceTo target_point target_point ≤ 2
        rw [sampleDistanceTo_self]
        norm_num)).1 (cruisingCycle_ok target_point initialState)).2.1⟩

/-! ## Missing shared state -/

/-- C13: when the rerouting status is absent, `ApplyRule` returns the `PLANNING_ERROR`
status with the reason string, the dispatcher is not called and the state is unchanged,
whatever the corridor and vehicle inputs are. -/
theorem missing_status_is_error (c : Cycle) (st : State) (hst : st.rerouting = none) :
    (ApplyRule c st).1 =
        ⟨ErrorCode.PLANNING_ERROR, "In un-successful lane change case, rerouting failed"⟩ ∧
      (ApplyRule c st).1.code = ErrorCode.PLANNING_ERROR ∧
      (ApplyRule c st).2.rerouting_calls = st.rerouting_calls ∧
      (ApplyRule c st).2 = st := by
  have hsame : (ChangeLaneFailRerouting c st).st = st := by
    rcases ChangeLaneFailRerouting_cases c st with h | ⟨r, hr⟩
    · exact h
    · have h2 := hr.2.1
      rw [hst] at h2
      exact absurd h2 (by simp)
  have hfst : (ApplyRule c st).1 =
      ⟨ErrorCode.PLANNING_ERROR, "In un-successful lane change case, rerouting failed"⟩ ∧
      (ApplyRule c st).2 = st := by
    cases hok : (ChangeLaneFailRerouting c st).ok with
    | false =>
      exact ⟨ApplyRule_fst_of_fail c st hok, by rw [ApplyRule_snd_of_fail c st hok, hsame]⟩
    | true =>
      have hb : (LaneBorrowFailRerouting c (ChangeLaneFailRerouting c st).st).ok = false := by
        rw [LaneBorrowFailRerouting_ok, hsame, hst]
        rfl
      refine ⟨ApplyRule_fst_of_borrow_fail c st hok hb, ?_⟩
      rw [ApplyRule_snd_of_ok c st hok, hsame]
      simp [LaneBorrowFailRerouting, hst]
  exact ⟨hfst.1, by rw [hfst.1], by rw [hfst.2], hfst.2⟩

/-- Instance of C13: a forward cycle, which the cascade leaves at the forward guard
without reading the status, still ends in the planning error. -/
theorem missing_status_is_error_witness :
    missingStatusState.rerouting = none ∧
      (ApplyRule (cruisingCycle origin) missingStatusState).1.code =
        ErrorCode.PLANNING_ERROR :=
  ⟨rfl, (missing_status_is_error (cruisingCycle origin) missingStatusState rfl).2.1⟩

/-- C14, refuted as stated: with the rerouting status absent `LaneBorrowFailRerouting`
returns failure. -/
theorem proximity_trigger_fails_without_status :
    (LaneBorrowFailRerouting (cruisingCycle target_point) missingStatusState).ok = false := by
  rw [LaneBorrowFailRerouting_ok]
  rfl

/-- C14, amended: for every vehicle position and latch state, `LaneBorrowFailRerouting`
returns success when the rerouting status is present; when it is absent the function returns
failure and leaves the state as it was. -/
theorem proximity_trigger_success_iff_status (c : Cycle) (st : State) :
    (∀ rerouting, st.rerouting = some rerouting → (LaneBorrowFailRerouting c st).ok = true) ∧
      (st.rerouting = none →
        (LaneBorrowFailRerouting c st).ok = false ∧ (LaneBorrowFailRerouting c st).st = st) := by
  refine ⟨fun r hr => by rw [LaneBorrowFailRerouting_ok, hr]; rfl, fun hn => ?_⟩
  simp [LaneBorrowFailRerouting, hn]

/-- Instance of the amended C14: status present, latch set. -/
theorem proximity_trigger_success_iff_status_witness :
    latchedState.rerouting = some emptyStatus ∧
      (LaneBorrowFailRerouting (cruisingCycle target_point) latchedState).ok = true :=
  ⟨rfl, (proximity_trigger_success_iff_status (cruisingCycle target_point) latchedState).1
    emptyStatus rfl⟩


/-! ## `last_rerouting_time` across a cycle -/

theorem ApplyRule_last (c : Cycle) (st : State) :
    (ApplyRule c st).2.rerouting.map ReroutingStatus.last_rerouting_time =
      (ChangeLaneFailRerouting c st).st.rerouting.map ReroutingStatus.last_rerouting_time := by
  cases hok : (ChangeLaneFailRerouting c st).ok with
  | false => rw [ApplyRule_snd_of_fail c st hok]
  | true => rw [ApplyRule_snd_of_ok c st hok, LaneBorrowFailRerouting_last]

theorem ApplyRule_calls (c : Cycle) (st : State) :
    (ApplyRule c st).2.rerouting_calls = (ChangeLaneFailRerouting c st).st.rerouting_calls := by
  cases hok : (ChangeLaneFailRerouting c st).ok with
  | false => rw [ApplyRule_snd_of_fail c st hok]
  | true => rw [ApplyRule_snd_of_ok c st hok, LaneBorrowFailRerouting_calls]

/-- C15: in an `ApplyRule` cycle at clock time `now` with a dispatcher that does not write
the status, `last_rerouting_time` after the cycle is what it was before, or else it is `now`
and the cascade called the dispatcher, which succeeded; a value that was set stays set;
and if it was `L` before and `now ≥ L` or `cooldown_time ≥ 0`, the value after is at
least `L`. -/
theorem last_rerouting_time_monotone (c : Cycle) (st : State)
    (hframe : ∀ r, (c.frame.Rerouting r).2 = r) :
    ((ApplyRule c st).2.rerouting.map ReroutingStatus.last_rerouting_time =
          st.rerouting.map ReroutingStatus.last_rerouting_time ∨
        ((ApplyRule c st).2.rerouting.map ReroutingStatus.last_rerouting_time =
            some (some c.now) ∧
          (ChangeLaneFailRerouting c st).exit = ChangeLaneExit.dispatched ∧
          (ApplyRule c st).2.rerouting_calls = st.rerouting_calls + 1)) ∧
      ∀ L, st.rerouting.map ReroutingStatus.last_rerouting_time = some (some L) →
        ∃ L1, (ApplyRule c st).2.rerouting.map ReroutingStatus.last_rerouting_time =
            some (some L1) ∧
          (L.val ≤ c.now.val ∨ 0 ≤ c.config.cooldown_time.val → L.val ≤ L1.val) := by
  rw [ApplyRule_last, ApplyRule_calls]
  rcases ChangeLaneFailRerouting_cases c st with h | ⟨r, hr⟩
  · rw [h]
    exact ⟨Or.inl rfl, fun L hL => ⟨L, hL, fun _ => le_refl L.val⟩⟩
  · have e := ChangeLaneFailRerouting_dispatchStep c st r hr
    obtain ⟨-, hst, hclear⟩ := hr
    by_cases hs : (c.frame.Rerouting r).1 = true
    · rw [if_pos hs] at e
      rw [e]
      refine ⟨Or.inr ⟨rfl, rfl, rfl⟩, fun L hL => ⟨c.now, rfl, fun hor => ?_⟩⟩
      have hrL : r.last_rerouting_time = some L := by simpa [hst] using hL
      have hge : ¬ (c.now.sub L < c.config.cooldown_time.val) :=
        fun hlt => hclear ⟨L, hrL, hlt⟩
      rcases hor with hle | hcd
      · exact hle
      · by_contra hlt
        exact hge (lt_of_lt_of_le (sub_neg_of_lt c.now L (not_le.1 hlt)) hcd)
    · rw [if_neg hs, hframe r] at e
      rw [e, hst]
      exact ⟨Or.inl rfl, fun L hL => ⟨L, by simpa [hst] using hL, fun _ => le_refl L.val⟩⟩

/-- Instance of C15: the triggering cycle at clock time 100 on a status last dispatched at
time 7 moves `last_rerouting_time` to a value that is at least 7. -/
theorem last_rerouting_time_monotone_witness :
    (∀ r, ((triggeringCycle (Double.ofNat 100)).frame.Rerouting r).2 = r) ∧
      ∃ L1, (ApplyRule (triggeringCycle (Double.ofNat 100)) staleState).2.rerouting.map
            ReroutingStatus.last_rerouting_time = some (some L1) ∧
          (Double.ofNat 7).val ≤ L1.val := by
  have hframe : ∀ r, ((triggeringCycle (Double.ofNat 100)).frame.Rerouting r).2 = r :=
    fun _ => rfl
  obtain ⟨L1, h1, h2⟩ := (last_rerouting_time_monotone (triggeringCycle (Double.ofNat 100))
    staleState hframe).2 (Double.ofNat 7) rfl
  refine ⟨hframe, L1, h1, h2 (Or.inl ?_)⟩
  show (Double.ofNat 7).val ≤ (Double.ofNat 100).val
  rw [Double.ofNat_val 7 (by norm_num), Double.ofNat_val 100 (by norm_num)]
  norm_num

/-! ## Top-level outcome -/

/-- C16: `ApplyRule` returns `Status::OK` if and only if `ChangeLaneFailRerouting` returns
success and `LaneBorrowFailRerouting`, run on the state it left, returns success; in every
other case it returns the status with code `PLANNING_ERROR` and the reason string
"In un-successful lane change case, rerouting failed". -/
theorem apply_rule_outcome (c : Cycle) (st : State) :
    ((ApplyRule c st).1 = Status.OK ↔
        ((ChangeLaneFailRerouting c st).ok = true ∧
          (LaneBorrowFailRerouting c (ChangeLaneFailRerouting c st).st).ok = true)) ∧
      (ApplyRule c st).1 =
        (if (ChangeLaneFailRerouting c st).ok = true ∧
            (LaneBorrowFailRerouting c (ChangeLaneFailRerouting c st).st).ok = true then
          Status.OK
        else
          ⟨ErrorCode.PLANNING_ERROR,
            "In un-successful lane change case, rerouting failed"⟩) := by
  have hne : (⟨ErrorCode.PLANNING_ERROR,
      "In un-successful lane change case, rerouting failed"⟩ : Status) ≠ Status.OK := by
    decide
  cases h1 : (ChangeLaneFailRerouting c st).ok with
  | false =>
    have e := ApplyRule_fst_of_fail c st h1
    rw [e]
    exact ⟨⟨fun h => absurd h hne, fun h => absurd h.1 (by simp)⟩, by simp⟩
  | true =>
    cases h2 : (LaneBorrowFailRerouting c (ChangeLaneFailRerouting c st).st).ok with
    | false =>
      have e := ApplyRule_fst_of_borrow_fail c st h1 h2
      rw [e]
      exact ⟨⟨fun h => absurd h hne, fun h => absurd h.2 (by simp)⟩, by simp⟩
    | true =>
      have e := ApplyRule_fst_of_ok c st h1 h2
      rw [e]
      exact ⟨⟨fun _ => ⟨rfl, rfl⟩, fun _ => rfl⟩, by simp⟩

/-! ## Guard precedence and the exact dispatch condition -/

theorem nearDestination_eq_false_iff (l : List ReferenceLineInfo) :
    nearDestination l = false ↔
      ∀ r ∈ l, r.ReachedDestination = false ∧ ¬ r.SDistanceToDestination.val < 20 := by
  rw [Bool.eq_false_iff, Ne, nearDestination_iff]
  constructor
  · intro h r hr
    refine ⟨?_, fun hlt => h ⟨r, hr, Or.inr hlt⟩⟩
    cases hd : r.ReachedDestination with
    | false => rfl
    | true => exact absurd ⟨r, hr, Or.inl hd⟩ h
  · rintro h ⟨r, hr, hp⟩
    rcases hp with hp | hp
    · rw [(h r hr).1] at hp
      simp at hp
    · exact (h r hr).2 hp

/-- C17: when no candidate corridor has reached the destination or is less than 20.0 from
it, and the vehicle is not on the segment, or `CanExit()` is true, or the end waypoint has
no lane, `ChangeLaneFailRerouting` returns success at one of the guards before the
projection, with the state untouched: whatever `XYToSL` would answer, whether or not the
status is present, whatever the dispatcher would report. -/
theorem early_guards_short_circuit (c : Cycle) (st : State)
    (hdest : ∀ r ∈ c.frame.reference_line_info,
      r.ReachedDestination = false ∧ ¬ r.SDistanceToDestination.val < 20)
    (h : c.reference_line_info.Lanes.IsOnSegment = false ∨
      c.reference_line_info.Lanes.CanExit = true ∨
      c.reference_line_info.Lanes.RouteEndWaypoint.lane = none) :
    (ChangeLaneFailRerouting c st).ok = true ∧
      (ChangeLaneFailRerouting c st).st = st ∧
      (ChangeLaneFailRerouting c st).st.rerouting_calls = st.rerouting_calls ∧
      ((ChangeLaneFailRerouting c st).exit = ChangeLaneExit.forward ∨
        (ChangeLaneFailRerouting c st).exit = ChangeLaneExit.notOnSegment ∨
        (ChangeLaneFailRerouting c st).exit = ChangeLaneExit.canExit ∨
        (ChangeLaneFailRerouting c st).exit = ChangeLaneExit.noEndWaypoint) := by
  have h0 : nearDestination c.frame.reference_line_info = false :=
    (nearDestination_eq_false_iff _).2 hdest
  by_cases h1 : c.reference_line_info.Lanes.NextAction = ChangeLaneType.FORWARD
  · simp [ChangeLaneFailRerouting, h0, h1]
  cases h2 : c.reference_line_info.Lanes.IsOnSegment with
  | false => simp [ChangeLaneFailRerouting, h0, h1, h2]
  | true =>
    cases h3 : c.reference_line_info.Lanes.CanExit with
    | true => simp [ChangeLaneFailRerouting, h0, h1, h2, h3]
    | false =>
      have h4 : c.reference_line_info.Lanes.RouteEndWaypoint.lane = none := by
        rcases h with h | h | h
        · rw [h2] at h
          simp at h
        · rw [h3] at h
          simp at h
        · exact h
      simp [ChangeLaneFailRerouting, h0, h1, h2, h3, h4]

/-- Instance of C17: `CanExit()` true on a corridor on which nothing projects, with the
status absent and a dispatcher that would fail. -/
theorem early_guards_short_circuit_witness :
    (earlyExitCycle true true (some sampleLane)).reference_line_info.Lanes.CanExit = true ∧
      (ChangeLaneFailRerouting (earlyExitCycle true true (some sampleLane))
        missingStatusState).ok = true :=
  ⟨rfl, (early_guards_short_circuit (earlyExitCycle true true (some sampleLane))
    missingStatusState
    (by
      intro r hr
      have hr2 : r = earlyExitCorridor true true (some sampleLane) := by
        simpa [earlyExitCycle, sampleCycle] using hr
      subst hr2
      refine ⟨rfl, ?_⟩
      show ¬ (Double.ofNat 500).val < 20
      rw [Double.ofNat_val 500 (by norm_num)]
      norm_num)
    (Or.inr (Or.inl rfl))).1⟩

theorem reachesDispatchStep_iff (c : Cycle) (st : State) :
    (∃ rerouting, reachesDispatchStep c st rerouting) ↔
      ((∀ r ∈ c.frame.reference_line_info,
          r.ReachedDestination = false ∧ ¬ r.SDistanceToDestination.val < 20) ∧
        c.reference_line_info.Lanes.NextAction ≠ ChangeLaneType.FORWARD ∧
        c.reference_line_info.Lanes.IsOnSegment = true ∧
        c.reference_line_info.Lanes.CanExit = false ∧
        ∃ lane sl_point rerouting,
          c.reference_line_info.Lanes.RouteEndWaypoint.lane = some lane ∧
          c.reference_line_info.reference_line.XYToSL
            (lane.GetSmoothPoint c.reference_line_info.Lanes.RouteEndWaypoint.s) =
            some sl_point ∧
          c.reference_line_info.reference_line.IsOnLane sl_point = true ∧
          sl_point.s.val ≤ c.reference_line_info.AdcSlBoundary.end_s.add
            (c.linear_velocity.mul c.config.prepare_rerouting_time) ∧
          st.rerouting = some rerouting ∧
          (rerouting.last_rerouting_time = none ∨
            ∃ last, rerouting.last_rerouting_time = some last ∧
              c.now.sub last ≥ c.config.cooldown_time.val)) := by
  constructor
  · rintro ⟨r, ⟨sl_point, ⟨⟨h0, h1, h2, h3, lane, h4, h5⟩, h6⟩, hnear⟩, hst, hclear⟩
    refine ⟨(nearDestination_eq_false_iff _).1 h0, h1, h2, h3, lane, sl_point, r, h4, h5, h6,
      hnear, hst, ?_⟩
    cases hl : r.last_rerouting_time with
    | none => exact Or.inl rfl
    | some last => exact Or.inr ⟨last, rfl, not_lt.1 fun hlt => hclear ⟨last, hl, hlt⟩⟩
  · rintro ⟨h0, h1, h2, h3, lane, sl_point, r, h4, h5, h6, hnear, hst, hclear⟩
    refine ⟨r, ⟨sl_point, ⟨⟨(nearDestination_eq_false_iff _).2 h0, h1, h2, h3, lane, h4, h5⟩,
      h6⟩, hnear⟩, hst, ?_⟩
    rintro ⟨last, hl, hlt⟩
    rcases hclear with hn | ⟨last2, hl2, hge⟩
    · rw [hn] at hl
      simp at hl
    · rw [hl2] at hl
      have : last2 = last := by simpa using hl
      subst this
      exact absurd hlt (not_lt.2 hge)

theorem ChangeLaneFailRerouting_calls_iff (c : Cycle) (st : State) :
    ((ChangeLaneFailRerouting c st).st.rerouting_calls = st.rerouting_calls + 1 ↔
        ∃ rerouting, reachesDispatchStep c st rerouting) ∧
      ((ChangeLaneFailRerouting c st).st.rerouting_calls = st.rerouting_calls ∨
        (ChangeLaneFailRerouting c st).st.rerouting_calls = st.rerouting_calls + 1) := by
  by_cases hex : ∃ rerouting, reachesDispatchStep c st rerouting
  · obtain ⟨r, hr⟩ := hex
    have hcalls : (ChangeLaneFailRerouting c st).st.rerouting_calls =
        st.rerouting_calls + 1 := by
      rw [ChangeLaneFailRerouting_dispatchStep c st r hr]
      split <;> rfl
    exact ⟨⟨fun _ => ⟨r, hr⟩, fun _ => hcalls⟩, Or.inr hcalls⟩
  · have hsame : (ChangeLaneFailRerouting c st).st = st := by
      rcases ChangeLaneFailRerouting_cases c st with h | h
      · exact h
      · exact absurd h hex
    rw [hsame]
    exact ⟨⟨fun h => absurd h (by omega), fun h => absurd h hex⟩, Or.inl rfl⟩

theorem exit_dispatch_iff (c : Cycle) (st : State) :
    ((ChangeLaneFailRerouting c st).exit = ChangeLaneExit.dispatched ∨
        (ChangeLaneFailRerouting c st).exit = ChangeLaneExit.dispatchFailed) ↔
      ∃ rerouting, reachesDispatchStep c st rerouting := by
  constructor
  · exact reachesDispatchStep_of_exit c st
  · rintro ⟨r, hr⟩
    rw [ChangeLaneFailRerouting_dispatchStep c st r hr]
    split
    · exact Or.inl rfl
    · exact Or.inr rfl

theorem triggeringCycle_redispatches_calls (S : State)
    (hlast : S.rerouting.map ReroutingStatus.last_rerouting_time = some (some clock_1_17)) :
    (ChangeLaneFailRerouting (triggeringCycle clock_31_17) S).st.rerouting_calls =
      S.rerouting_calls + 1 := by
  rw [← ApplyRule_calls]
  exact (triggeringCycle_redispatches S hlast).2.1

/-- C18, refuted as stated: (a) with speed 0.1, `prepare_rerouting_time = 3`, `adc_s = 0`
and the end of passage projected at `s = 0.30000000000000004`, the dispatcher is called
although `sl_point.s ≤ adc_s + speed * prepare_rerouting_time` is false for the values of
the doubles; (b) with `last_rerouting_time = 1.17`, `now = 31.169999999999998` and
`cooldown_time = 30` the dispatcher is called although `last_rerouting_time` is set and
`now - last_rerouting_time ≥ cooldown_time` is false for the values of the doubles. -/
theorem dispatch_condition_rounding :
    reachesLeadTimeStep roundedLeadTimeCycle roundedEnd ∧
      ¬ (roundedEnd.s.val ≤ roundedLeadTimeCycle.reference_line_info.AdcSlBoundary.end_s.val +
        roundedLeadTimeCycle.linear_velocity.val *
          roundedLeadTimeCycle.config.prepare_rerouting_time.val) ∧
      (ChangeLaneFailRerouting roundedLeadTimeCycle initialState).st.rerouting_calls =
        initialState.rerouting_calls + 1 ∧
      dispatchedState.rerouting.map ReroutingStatus.last_rerouting_time =
        some (some clock_1_17) ∧
      (triggeringCycle clock_31_17).now = clock_31_17 ∧
      ¬ (clock_31_17.val - clock_1_17.val ≥
        (triggeringCycle clock_31_17).config.cooldown_time.val) ∧
      (ChangeLaneFailRerouting (triggeringCycle clock_31_17) dispatchedState).st.rerouting_calls =
        dispatchedState.rerouting_calls + 1 := by
  refine ⟨roundedLeadTimeCycle_reaches, not_le.2 roundedLeadTimeCycle_exact,
    roundedLeadTimeCycle_dispatches.2, rfl, rfl, ?_,
    triggeringCycle_redispatches_calls dispatchedState rfl⟩
  have h30 : (triggeringCycle clock_31_17).config.cooldown_time.val = 30 := by
    show (Double.ofNat 30).val = 30
    rw [Double.ofNat_val 30 (by norm_num)]
    norm_num
  rw [h30]
  simp only [clock_31_17, clock_1_17, Double.ofScaled_val]
  norm_num

/-- C18, amended: `ChangeLaneFailRerouting` calls the dispatcher if and only if no candidate
corridor has reached the destination or is less than 20.0 from it, `NextAction()` is not
`FORWARD`, the vehicle is on the segment, `CanExit()` is false, the end waypoint has a lane,
`XYToSL` succeeds, `IsOnLane(sl_point)` is true, `sl_point.s` is at most
`adc_s + speed * prepare_rerouting_time` as computed in double arithmetic (the product
rounded, then the sum rounded), the rerouting status is present, and `last_rerouting_time`
is unset or the difference `now - last_rerouting_time`, as computed in double arithmetic,
is at least `cooldown_time`; a call shows as a return after the dispatcher call site, and
the dispatcher is called at most once in a cycle. -/
theorem dispatch_condition (c : Cycle) (st : State) :
    ((ChangeLaneFailRerouting c st).st.rerouting_calls = st.rerouting_calls + 1 ↔
        ((∀ r ∈ c.frame.reference_line_info,
            r.ReachedDestination = false ∧ ¬ r.SDistanceToDestination.val < 20) ∧
          c.reference_line_info.Lanes.NextAction ≠ ChangeLaneType.FORWARD ∧
          c.reference_line_info.Lanes.IsOnSegment = true ∧
          c.reference_line_info.Lanes.CanExit = false ∧
          ∃ lane sl_point rerouting,
            c.reference_line_info.Lanes.RouteEndWaypoint.lane = some lane ∧
            c.reference_line_info.reference_line.XYToSL
              (lane.GetSmoothPoint c.reference_line_info.Lanes.RouteEndWaypoint.s) =
              some sl_point ∧
            c.reference_line_info.reference_line.IsOnLane sl_point = true ∧
            sl_point.s.val ≤ c.reference_line_info.AdcSlBoundary.end_s.add
              (c.linear_velocity.mul c.config.prepare_rerouting_time) ∧
            st.rerouting = some rerouting ∧
            (rerouting.last_rerouting_time = none ∨
              ∃ last, rerouting.last_rerouting_time = some last ∧
                c.now.sub last ≥ c.config.cooldown_time.val))) ∧
      ((ChangeLaneFailRerouting c st).st.rerouting_calls = st.rerouting_calls + 1 ↔
        ((ChangeLaneFailRerouting c st).exit = ChangeLaneExit.dispatched ∨
          (ChangeLaneFailRerouting c st).exit = ChangeLaneExit.dispatchFailed)) ∧
      ((ChangeLaneFailRerouting c st).st.rerouting_calls = st.rerouting_calls ∨
        (ChangeLaneFailRerouting c st).st.rerouting_calls = st.rerouting_calls + 1) := by
  have h := ChangeLaneFailRerouting_calls_iff c st
  exact ⟨h.1.trans (reachesDispatchStep_iff c st), h.1.trans (exit_dispatch_iff c st).symm,
    h.2⟩

/-! ## Frame separation of the two triggers -/

theorem ChangeLaneFailRerouting_frame (c : Cycle) (st : State)
    (hframe : ∀ r, (c.frame.Rerouting r).2 = r) :
    (ChangeLaneFailRerouting c st).st.rerouting.map ReroutingStatus.need_rerouting =
        st.rerouting.map ReroutingStatus.need_rerouting ∧
      (ChangeLaneFailRerouting c st).st.rerouting.map ReroutingStatus.lane_follow_command =
        st.rerouting.map ReroutingStatus.lane_follow_command := by
  rcases ChangeLaneFailRerouting_cases c st with h | ⟨r, hr⟩
  · rw [h]
    exact ⟨rfl, rfl⟩
  · rw [ChangeLaneFailRerouting_dispatchStep c st r hr, hframe r, hr.2.1]
    split
    · exact ⟨rfl, rfl⟩
    · exact ⟨rfl, rfl⟩

theorem LaneBorrowFailRerouting_need (c : Cycle) (st : State)
    (h : st.rerouting.map ReroutingStatus.need_rerouting = some true) :
    (LaneBorrowFailRerouting c st).st.rerouting.map ReroutingStatus.need_rerouting =
      some true := by
  unfold LaneBorrowFailRerouting
  cases hst : st.rerouting with
  | none => simp [hst] at h
  | some rerouting =>
    dsimp only
    split
    · exact h
    · rfl

/-- C19: with a dispatcher that does not write the status, `ChangeLaneFailRerouting` leaves
`need_rerouting`, `lane_follow_command` and the latch `is_rerouting_` as they were;
`LaneBorrowFailRerouting` leaves `last_rerouting_time` and the dispatcher call count as they
were; and after either function a `need_rerouting` that was true is still true and a latch
that was set is still set. -/
theorem frame_separation (c : Cycle) (st : State)
    (hframe : ∀ r, (c.frame.Rerouting r).2 = r) :
    ((ChangeLaneFailRerouting c st).st.rerouting.map ReroutingStatus.need_rerouting =
          st.rerouting.map ReroutingStatus.need_rerouting ∧
        (ChangeLaneFailRerouting c st).st.rerouting.map ReroutingStatus.lane_follow_command =
          st.rerouting.map ReroutingStatus.lane_follow_command ∧
        (ChangeLaneFailRerouting c st).st.is_rerouting_ = st.is_rerouting_) ∧
      ((LaneBorrowFailRerouting c st).st.rerouting.map ReroutingStatus.last_rerouting_time =
          st.rerouting.map ReroutingStatus.last_rerouting_time ∧
        (LaneBorrowFailRerouting c st).st.rerouting_calls = st.rerouting_calls) ∧
      ((st.rerouting.map ReroutingStatus.need_rerouting = some true →
          (ChangeLaneFailRerouting c st).st.rerouting.map ReroutingStatus.need_rerouting =
              some true ∧
            (LaneBorrowFailRerouting c st).st.rerouting.map ReroutingStatus.need_rerouting =
              some true) ∧
        (st.is_rerouting_ = true →
          (ChangeLaneFailRerouting c st).st.is_rerouting_ = true ∧
            (LaneBorrowFailRerouting c st).st.is_rerouting_ = true)) := by
  have hf := ChangeLaneFailRerouting_frame c st hframe
  have hl := ChangeLaneFailRerouting_latch c st
  refine ⟨⟨hf.1, hf.2, hl⟩,
    ⟨LaneBorrowFailRerouting_last c st, LaneBorrowFailRerouting_calls c st⟩,
    fun hn => ⟨by rw [hf.1, hn], LaneBorrowFailRerouting_need c st hn⟩,
    fun hs => ⟨by rw [hl, hs], LaneBorrowFailRerouting_latch c st hs⟩⟩

/-- Instance of C19: the triggering cycle, whose dispatcher leaves the status alone,
dispatches and leaves `need_rerouting` false and the latch unset. -/
theorem frame_separation_witness :
    (∀ r, ((triggeringCycle (Double.ofNat 100)).frame.Rerouting r).2 = r) ∧
      (ChangeLaneFailRerouting (triggeringCycle (Double.ofNat 100))
        initialState).st.rerouting.map ReroutingStatus.need_rerouting = some false ∧
      (ChangeLaneFailRerouting (triggeringCycle (Double.ofNat 100))
        initialState).st.is_rerouting_ = false := by
  have hframe : ∀ r, ((triggeringCycle (Double.ofNat 100)).frame.Rerouting r).2 = r :=
    fun _ => rfl
  have h := (frame_separation (triggeringCycle (Double.ofNat 100)) initialState hframe).1
  exact ⟨hframe, h.1, h.2.2⟩

end planning
end apollo
